import Mathlib

/-!
# Verification of the otlp-wire wire-format walker

Shallow embedding of `otlpwire.go` (package `otlpwire`): byte buffers are
`List Nat` (each element a byte value, read modulo 256 exactly as Go's
`[]byte` indexing does), the `google.golang.org/protobuf/encoding/protowire`
primitives used by the package are modelled faithfully (including the
negative-return error convention, rendered as `Option`), and every traversal
function returns the same `(value, error)` pair shape as the Go source.
-/

namespace OtlpWire

/-- Go's `int32(v)` conversion applied to an unsigned 64-bit value:
truncate to the low 32 bits, two's complement. Used by
`protowire.DecodeTag`, whose `Number` type is an `int32`. -/
def toInt32 (x : Nat) : Int :=
  if x % 2 ^ 32 < 2 ^ 31 then ((x % 2 ^ 32 : Nat) : Int)
  else ((x % 2 ^ 32 : Nat) : Int) - 2 ^ 32

/-- `protowire.ConsumeVarint`, unrolled byte-at-a-time: `i` is the byte
index (0-based), `acc` the value accumulated from lower-order groups.
At index 9 (the 10th byte) the byte must be at most 1, else the varint
overflows 64 bits and Go reports an error. `none` models Go's negative
return count (truncated / overflow). -/
def consumeVarintGo : List Nat → Nat → Nat → Option (Nat × Nat)
  | [], _, _ => none
  | b :: rest, i, acc =>
    let y := b % 256
    if i = 9 then
      if y < 2 then some (acc + y * 2 ^ 63, 10) else none
    else if y < 128 then some (acc + y * 2 ^ (7 * i), i + 1)
    else consumeVarintGo rest (i + 1) (acc + (y - 128) * 2 ^ (7 * i))

/-- `protowire.ConsumeVarint b` returning `(value, bytesConsumed)`. -/
def consumeVarint (b : List Nat) : Option (Nat × Nat) :=
  consumeVarintGo b 0 0

/-- `protowire.ConsumeTag`: decode one varint, split it as
`(Number(v >> 3), Type(v & 7))`, reject field numbers below 1.
The field number is an `Int` because Go's `Number` is an `int32` and the
`uint64 → int32` conversion truncates. -/
def consumeTag (b : List Nat) : Option (Int × Nat × Nat) :=
  match consumeVarint b with
  | none => none
  | some (v, n) =>
    let num := toInt32 (v / 8)
    let typ := v % 8
    if num < 1 then none else some (num, typ, n)

/-- `protowire.ConsumeBytes`: decode the length varint `m`, fail if `m`
exceeds the remaining bytes, else return the `m`-byte payload and the
total consumed count. -/
def consumeBytes (b : List Nat) : Option (List Nat × Nat) :=
  match consumeVarint b with
  | none => none
  | some (m, n) =>
    if m > (b.drop n).length then none
    else some ((b.drop n).take m, n + m)

/-- `protowire.ConsumeFixed32`: 4 little-endian bytes. -/
def consumeFixed32 (b : List Nat) : Option (Nat × Nat) :=
  match b with
  | b0 :: b1 :: b2 :: b3 :: _ =>
    some (b0 % 256 + b1 % 256 * 2 ^ 8 + b2 % 256 * 2 ^ 16 + b3 % 256 * 2 ^ 24, 4)
  | _ => none

/-- `protowire.ConsumeFixed64`: 8 little-endian bytes. -/
def consumeFixed64 (b : List Nat) : Option (Nat × Nat) :=
  match b with
  | b0 :: b1 :: b2 :: b3 :: b4 :: b5 :: b6 :: b7 :: _ =>
    some (b0 % 256 + b1 % 256 * 2 ^ 8 + b2 % 256 * 2 ^ 16 + b3 % 256 * 2 ^ 24
      + b4 % 256 * 2 ^ 32 + b5 % 256 * 2 ^ 40 + b6 % 256 * 2 ^ 48 + b7 % 256 * 2 ^ 56, 8)
  | _ => none

/-- `skipField` from `otlpwire.go`: dispatch on the wire type; varint,
fixed64, length-delimited and fixed32 are consumed, every other wire
type (groups, 6, 7) is an error (`none`, Go's `-1`). -/
def skipField (data : List Nat) (wireType : Nat) : Option Nat :=
  if wireType = 0 then (consumeVarint data).map (·.2)
  else if wireType = 1 then (consumeFixed64 data).map (·.2)
  else if wireType = 2 then (consumeBytes data).map (·.2)
  else if wireType = 5 then (consumeFixed32 data).map (·.2)
  else none

/-- `protowire.AppendVarint` (7-bit groups, little-endian, continuation
bit on every byte but the last). Go's unrolled switch emits at most 10
bytes for a `uint64`; the fuel argument makes that bound structural and
the recursion executable. For every `v < 2 ^ 64` — all values a Go
`uint64` can hold — fuel 10 is never exhausted. -/
def appendVarintGo : Nat → Nat → List Nat
  | _, 0 => []
  | v, fuel + 1 => if v < 128 then [v] else (v % 128 + 128) :: appendVarintGo (v / 128) fuel

/-- `protowire.AppendVarint b v` for a Go `uint64` value. -/
def appendVarint (v : Nat) : List Nat :=
  appendVarintGo v 10

/-- `protowire.AppendTag b num typ = AppendVarint b (EncodeTag num typ)`
with `EncodeTag num typ = uint64(num) << 3 | uint64(typ)`. -/
def appendTag (b : List Nat) (num : Nat) (typ : Nat) : List Nat :=
  b ++ appendVarint (num * 8 + typ)

/-- `protowire.AppendBytes b v`: length varint then the raw payload. -/
def appendBytes (b : List Nat) (v : List Nat) : List Nat :=
  b ++ appendVarint v.length ++ v

/-- The single-level field walk shared verbatim by every counting and
extraction loop in `otlpwire.go`:

    for pos < len(data) {
      fieldNum, wireType, tagLen := protowire.ConsumeTag(data[pos:])
      if tagLen < 0 { return zero, errors.New(tagErr) }
      pos += tagLen
      if isMatch(fieldNum) && wireType == protowire.BytesType {
        msgBytes, n := protowire.ConsumeBytes(data[pos:])
        if n < 0 { return zero, errors.New(bytesErr) }
        pos += n
        acc, err = step(acc, msgBytes)
        if err != nil { return zero, err }
      } else {
        n := skipField(data[pos:], wireType)
        if n < 0 { return zero, errors.New("failed to skip field") }
        pos += n
      }
    }
    return acc, nil

Advancing `pos` over `data` is rendered as recursion on the remaining
suffix `data.drop pos`. The third component of the result is the number
of bytes the pass consumed (the final value of `pos` when starting from
0). Fuel is structural; each iteration consumes at least one byte, so
fuel `data.length + 1` is never exhausted. -/
def addConsumed {α : Type} (k : Nat) (r : α × Option String × Nat) :
    α × Option String × Nat :=
  (r.1, r.2.1, k + r.2.2)

def walkLoop {α : Type} (isMatch : Int → Bool) (tagErr bytesErr : String) (zero : α)
    (step : α → List Nat → α × Option String) :
    Nat → List Nat → α → α × Option String × Nat
  | 0, _, _ => (zero, some "out of fuel", 0)
  | fuel + 1, data, acc =>
    if data.isEmpty then (acc, none, 0)
    else
      match consumeTag data with
      | none => (zero, some tagErr, 0)
      | some (num, typ, tagLen) =>
        if isMatch num && typ == 2 then
          match consumeBytes (data.drop tagLen) with
          | none => (zero, some bytesErr, 0)
          | some (msg, n) =>
            match step acc msg with
            | (_, some e) => (zero, some e, 0)
            | (acc', none) =>
              addConsumed (tagLen + n)
                (walkLoop isMatch tagErr bytesErr zero step fuel
                  ((data.drop tagLen).drop n) acc')
        else
          match skipField (data.drop tagLen) typ with
          | none => (zero, some "failed to skip field", 0)
          | some n =>
            addConsumed (tagLen + n)
              (walkLoop isMatch tagErr bytesErr zero step fuel
                ((data.drop tagLen).drop n) acc)

/-- One complete single-level pass over a view, with canonical
(sufficient) fuel. -/
def walk {α : Type} (isMatch : Int → Bool) (tagErr bytesErr : String) (zero : α)
    (step : α → List Nat → α × Option String) (data : List Nat) (acc : α) :
    α × Option String × Nat :=
  walkLoop isMatch tagErr bytesErr zero step (data.length + 1) data acc

/-- Lift a nested `(count, error)` traversal into a walker step:
`c, err := inner(msgBytes); if err != nil { return 0, err }; count += c`. -/
def stepCount (inner : List Nat → Nat × Option String) (acc : Nat) (msg : List Nat) :
    Nat × Option String :=
  match inner msg with
  | (c, none) => (acc + c, none)
  | (_, some e) => (acc, some e)

/-- Walker step that appends the matched payload, as the extract loops do. -/
def stepCollect (acc : List (List Nat)) (msg : List Nat) :
    List (List Nat) × Option String :=
  (acc ++ [msg], none)

/-- `countDataPoints`: each length-delimited field 1 of a metric-variant
container is one data point. -/
def countDataPoints (data : List Nat) : Nat × Option String :=
  let r := walk (fun num => num == 1) "malformed protobuf tag in metric data points"
    "invalid bytes in DataPoints" 0 (fun acc _ => (acc + 1, none)) data 0
  (r.1, r.2.1)

/-- `countInMetric`: fields 5, 7, 9, 10, 11 are the metric variant
containers; count data points inside each. -/
def countInMetric (data : List Nat) : Nat × Option String :=
  let r := walk (fun num => num == 5 || num == 7 || num == 9 || num == 10 || num == 11)
    "malformed protobuf tag in Metric" "invalid bytes in metric data" 0
    (stepCount countDataPoints) data 0
  (r.1, r.2.1)

/-- `countInScopeMetrics`: field 2 holds the repeated `Metric` messages. -/
def countInScopeMetrics (data : List Nat) : Nat × Option String :=
  let r := walk (fun num => num == 2) "malformed protobuf tag in ScopeMetrics"
    "invalid bytes in Metrics" 0 (stepCount countInMetric) data 0
  (r.1, r.2.1)

/-- `countInResourceMetrics`: field 2 holds the repeated `ScopeMetrics`. -/
def countInResourceMetrics (data : List Nat) : Nat × Option String :=
  let r := walk (fun num => num == 2) "malformed protobuf tag in ResourceMetrics"
    "invalid bytes in ScopeMetrics" 0 (stepCount countInScopeMetrics) data 0
  (r.1, r.2.1)

/-- `countMetricDataPoints`: field 1 holds the repeated `ResourceMetrics`. -/
def countMetricDataPoints (data : List Nat) : Nat × Option String :=
  let r := walk (fun num => num == 1) "malformed protobuf tag in ExportMetricsServiceRequest"
    "invalid bytes in ResourceMetrics" 0 (stepCount countInResourceMetrics) data 0
  (r.1, r.2.1)

/-- `countInScopeLogs`: each length-delimited field 2 is one log record. -/
def countInScopeLogs (data : List Nat) : Nat × Option String :=
  let r := walk (fun num => num == 2) "malformed protobuf tag in ScopeLogs"
    "invalid bytes in LogRecords" 0 (fun acc _ => (acc + 1, none)) data 0
  (r.1, r.2.1)

/-- `countInResourceLogs`: field 2 holds the repeated `ScopeLogs`. -/
def countInResourceLogs (data : List Nat) : Nat × Option String :=
  let r := walk (fun num => num == 2) "malformed protobuf tag in ResourceLogs"
    "invalid bytes in ScopeLogs" 0 (stepCount countInScopeLogs) data 0
  (r.1, r.2.1)

/-- `countLogRecords`: field 1 holds the repeated `ResourceLogs`. -/
def countLogRecords (data : List Nat) : Nat × Option String :=
  let r := walk (fun num => num == 1) "malformed protobuf tag in ExportLogsServiceRequest"
    "invalid bytes in ResourceLogs" 0 (stepCount countInResourceLogs) data 0
  (r.1, r.2.1)

/-- `countInScopeSpans`: each length-delimited field 2 is one span. -/
def countInScopeSpans (data : List Nat) : Nat × Option String :=
  let r := walk (fun num => num == 2) "malformed protobuf tag in ScopeSpans"
    "invalid bytes in Spans" 0 (fun acc _ => (acc + 1, none)) data 0
  (r.1, r.2.1)

/-- `countInResourceSpans`: field 2 holds the repeated `ScopeSpans`. -/
def countInResourceSpans (data : List Nat) : Nat × Option String :=
  let r := walk (fun num => num == 2) "malformed protobuf tag in ResourceSpans"
    "invalid bytes in ScopeSpans" 0 (stepCount countInScopeSpans) data 0
  (r.1, r.2.1)

/-- `countSpans`: field 1 holds the repeated `ResourceSpans`. -/
def countSpans (data : List Nat) : Nat × Option String :=
  let r := walk (fun num => num == 1) "malformed protobuf tag in ExportTracesServiceRequest"
    "invalid bytes in ResourceSpans" 0 (stepCount countInResourceSpans) data 0
  (r.1, r.2.1)

/-- `extractResourceMetrics`: collect every length-delimited field 1
payload of an `ExportMetricsServiceRequest`, in encoding order. -/
def extractResourceMetrics (data : List Nat) : List (List Nat) × Option String :=
  let r := walk (fun num => num == 1) "malformed protobuf tag in ExportMetricsServiceRequest"
    "invalid bytes in ResourceMetrics" [] stepCollect data []
  (r.1, r.2.1)

/-- `extractResourceLogs`. -/
def extractResourceLogs (data : List Nat) : List (List Nat) × Option String :=
  let r := walk (fun num => num == 1) "malformed protobuf tag in ExportLogsServiceRequest"
    "invalid bytes in ResourceLogs" [] stepCollect data []
  (r.1, r.2.1)

/-- `extractResourceSpans`. -/
def extractResourceSpans (data : List Nat) : List (List Nat) × Option String :=
  let r := walk (fun num => num == 1) "malformed protobuf tag in ExportTracesServiceRequest"
    "invalid bytes in ResourceSpans" [] stepCollect data []
  (r.1, r.2.1)

/-- `wrapResourceMetrics`: `AppendTag(buf, 1, BytesType)` then
`AppendBytes(buf, resourceMetricsBytes)`. -/
def wrapResourceMetrics (resourceMetricsBytes : List Nat) : List Nat :=
  appendBytes (appendTag [] 1 2) resourceMetricsBytes

/-- `wrapResourceLogs`. -/
def wrapResourceLogs (resourceLogsBytes : List Nat) : List Nat :=
  appendBytes (appendTag [] 1 2) resourceLogsBytes

/-- `wrapResourceSpans`. -/
def wrapResourceSpans (resourceSpansBytes : List Nat) : List Nat :=
  appendBytes (appendTag [] 1 2) resourceSpansBytes

/-- `extractResourceMessage`: scan for field 1 (Resource) and return its
payload on the first match; skip everything else; when the walk exhausts
all fields without a match, return the empty byte string with nil error
(the source comments this as "resource might be optional"). Fuel is
structural; `data.length + 1` is never exhausted. -/
def extractResourceMessageGo : Nat → List Nat → String → List Nat × Option String
  | 0, _, _ => ([], some "out of fuel")
  | fuel + 1, data, messageType =>
    if data.isEmpty then ([], none)
    else
      match consumeTag data with
      | none => ([], some ("malformed protobuf tag in " ++ messageType))
      | some (num, typ, tagLen) =>
        let rest := data.drop tagLen
        if num == 1 && typ == 2 then
          match consumeBytes rest with
          | none => ([], some "invalid bytes in Resource")
          | some (msg, _) => (msg, none)
        else
          match skipField rest typ with
          | none => ([], some ("failed to skip field in " ++ messageType))
          | some n => extractResourceMessageGo fuel (rest.drop n) messageType

/-- `extractResourceMessage data messageType` with canonical fuel. -/
def extractResourceMessage (data : List Nat) (messageType : String) :
    List Nat × Option String :=
  extractResourceMessageGo (data.length + 1) data messageType

/-- `extractResourceFromResourceMetrics`. -/
def extractResourceFromResourceMetrics (data : List Nat) : List Nat × Option String :=
  extractResourceMessage data "ResourceMetrics"

/-- `extractResourceFromResourceLogs`. -/
def extractResourceFromResourceLogs (data : List Nat) : List Nat × Option String :=
  extractResourceMessage data "ResourceLogs"

/-- `extractResourceFromResourceSpans`. -/
def extractResourceFromResourceSpans (data : List Nat) : List Nat × Option String :=
  extractResourceMessage data "ResourceSpans"

/-- `ExportMetricsServiceRequest.DataPointCount`: discard the error. -/
def DataPointCount (m : List Nat) : Nat :=
  (countMetricDataPoints m).1

/-- `ExportLogsServiceRequest.LogRecordCount`. -/
def LogRecordCount (l : List Nat) : Nat :=
  (countLogRecords l).1

/-- `ExportTracesServiceRequest.SpanCount`. -/
def SpanCount (t : List Nat) : Nat :=
  (countSpans t).1

/-- `ExportMetricsServiceRequest.SplitByResource`: nil on error, else the
extracted resources (the Go wrapper re-types each slice, which is the
identity on the bytes). -/
def SplitByResourceMetrics (m : List Nat) : List (List Nat) :=
  match extractResourceMetrics m with
  | (_, some _) => []
  | (rs, none) => rs

/-- `ExportLogsServiceRequest.SplitByResource`. -/
def SplitByResourceLogs (l : List Nat) : List (List Nat) :=
  match extractResourceLogs l with
  | (_, some _) => []
  | (rs, none) => rs

/-- `ExportTracesServiceRequest.SplitByResource`. -/
def SplitByResourceSpans (t : List Nat) : List (List Nat) :=
  match extractResourceSpans t with
  | (_, some _) => []
  | (rs, none) => rs

/-- `ResourceMetrics.Resource`: discard the error. -/
def ResourceMetricsResource (r : List Nat) : List Nat :=
  (extractResourceFromResourceMetrics r).1

/-- `ResourceMetrics.AsExportRequest`. -/
def AsExportRequestMetrics (r : List Nat) : List Nat :=
  wrapResourceMetrics r

/-! ## Reference encoders for well-formed OTLP buffers

These build protobuf buffers the same way the repository's test fixtures
do (via `protowire.AppendTag` / `AppendBytes`); they are the image of
"well-formed request" used to state the functional-correctness claims. -/

/-- One length-delimited field: tag `(num, BytesType)`, length, payload. -/
def encodeField (num : Nat) (p : List Nat) : List Nat :=
  appendBytes (appendTag [] num 2) p

/-- A metric variant container as the claim describes it: a field number
(5, 7, 9, 10 or 11 in a well-formed metric) and the payloads of its
repeated field-1 data points. -/
structure MetricVariant where
  num : Nat
  dps : List (List Nat)

/-- Encode the repeated data points (field 1 of a variant container). -/
def encodeDataPoints (dps : List (List Nat)) : List Nat :=
  (dps.map (encodeField 1)).flatten

/-- Encode a `Metric` message consisting of its variant container fields. -/
def encodeMetric (vs : List MetricVariant) : List Nat :=
  (vs.map (fun v => encodeField v.num (encodeDataPoints v.dps))).flatten

/-- Encode a `ScopeMetrics` message: repeated field 2 = metrics. -/
def encodeScopeMetrics (ms : List (List MetricVariant)) : List Nat :=
  (ms.map (fun m => encodeField 2 (encodeMetric m))).flatten

/-- Encode a `ResourceMetrics` message: repeated field 2 = scopes. -/
def encodeResourceMetrics (ss : List (List (List MetricVariant))) : List Nat :=
  (ss.map (fun s => encodeField 2 (encodeScopeMetrics s))).flatten

/-- Encode an `ExportMetricsServiceRequest`: repeated field 1 = resources. -/
def encodeRequest (rs : List (List (List (List MetricVariant)))) : List Nat :=
  (rs.map (fun r => encodeField 1 (encodeResourceMetrics r))).flatten

/-- The number of data points a metric holds, per variant container. -/
def specCountMetric (vs : List MetricVariant) : Nat :=
  (vs.map (fun v => v.dps.length)).sum

/-- Data points in a scope. -/
def specCountScope (ms : List (List MetricVariant)) : Nat :=
  (ms.map specCountMetric).sum

/-- Data points in a resource. -/
def specCountResource (ss : List (List (List MetricVariant))) : Nat :=
  (ss.map specCountScope).sum

/-- Data points in a whole request: the number of length-delimited
field-1 occurrences inside metric-variant containers, reached by the
1 → 2 → 2 → variant descent. -/
def specCountRequest (rs : List (List (List (List MetricVariant)))) : Nat :=
  (rs.map specCountResource).sum

/-- Every variant field number in the request is one of the five metric
variant containers (gauge, sum, histogram, exponential histogram,
summary). -/
def validVariants (rs : List (List (List (List MetricVariant)))) : Prop :=
  ∀ r ∈ rs, ∀ s ∈ r, ∀ m ∈ s, ∀ v ∈ m,
    v.num = 5 ∨ v.num = 7 ∨ v.num = 9 ∨ v.num = 10 ∨ v.num = 11

/-- The top-level walk of a view exhausts all fields without finding a
length-delimited field 1: every field decodes, is not a
(field 1, wire type 2) match, and is skipped by its wire type, until
the view is exhausted. This is the input condition of the
resource-absence claim, phrased over the decoding primitives. -/
inductive NoResourceWalk : List Nat → Prop
  | nil : NoResourceWalk []
  | step (data : List Nat) (num : Int) (typ tagLen n : Nat) :
      consumeTag data = some (num, typ, tagLen) →
      ¬(num = 1 ∧ typ = 2) →
      skipField (data.drop tagLen) typ = some n →
      NoResourceWalk ((data.drop tagLen).drop n) →
      NoResourceWalk data

/-! ## Bounds of the primitive decoders -/

theorem consumeVarintGo_bounds : ∀ (b : List Nat) (i acc v n : Nat),
    consumeVarintGo b i acc = some (v, n) → i < n ∧ n ≤ i + b.length := by
  intro b
  induction b with
  | nil => intro i acc v n h; simp [consumeVarintGo] at h
  | cons x rest ih =>
    intro i acc v n h
    rw [consumeVarintGo] at h
    by_cases hi : i = 9
    · rw [if_pos hi] at h
      by_cases hy : x % 256 < 2
      · rw [if_pos hy] at h
        simp only [Option.some.injEq, Prod.mk.injEq] at h
        obtain ⟨-, h2⟩ := h
        simp only [List.length_cons]
        omega
      · rw [if_neg hy] at h
        exact absurd h (by simp)
    · rw [if_neg hi] at h
      by_cases hy : x % 256 < 128
      · rw [if_pos hy] at h
        simp only [Option.some.injEq, Prod.mk.injEq] at h
        obtain ⟨-, h2⟩ := h
        simp only [List.length_cons]
        omega
      · rw [if_neg hy] at h
        have := ih (i + 1) (acc + (x % 256 - 128) * 2 ^ (7 * i)) v n h
        simp only [List.length_cons]
        omega

theorem consumeVarint_bounds {b : List Nat} {v n : Nat}
    (h : consumeVarint b = some (v, n)) : 1 ≤ n ∧ n ≤ b.length := by
  have := consumeVarintGo_bounds b 0 0 v n h
  omega

theorem consumeTag_bounds {b : List Nat} {num : Int} {typ n : Nat}
    (h : consumeTag b = some (num, typ, n)) : 1 ≤ n ∧ n ≤ b.length := by
  unfold consumeTag at h
  cases hv : consumeVarint b with
  | none => rw [hv] at h; simp at h
  | some p =>
    rw [hv] at h
    obtain ⟨v, m⟩ := p
    by_cases hlt : toInt32 (v / 8) < 1
    · simp [hlt] at h
    · simp [hlt] at h
      obtain ⟨-, -, h3⟩ := h
      subst h3
      exact consumeVarint_bounds hv

theorem consumeBytes_bounds {b : List Nat} {msg : List Nat} {n : Nat}
    (h : consumeBytes b = some (msg, n)) :
    1 ≤ n ∧ n ≤ b.length := by
  unfold consumeBytes at h
  cases hv : consumeVarint b with
  | none => rw [hv] at h; exact absurd h (by simp)
  | some p =>
    obtain ⟨m, k⟩ := p
    rw [hv] at h
    dsimp only at h
    by_cases hgt : m > (b.drop k).length
    · rw [if_pos hgt] at h
      exact absurd h (by simp)
    · rw [if_neg hgt] at h
      simp only [Option.some.injEq, Prod.mk.injEq] at h
      obtain ⟨-, h2⟩ := h
      have hk := consumeVarint_bounds hv
      rw [List.length_drop] at hgt
      omega

theorem consumeFixed64_bounds {b : List Nat} {v n : Nat}
    (h : consumeFixed64 b = some (v, n)) : 1 ≤ n ∧ n ≤ b.length := by
  unfold consumeFixed64 at h
  match b with
  | b0 :: b1 :: b2 :: b3 :: b4 :: b5 :: b6 :: b7 :: rest =>
    simp only [Option.some.injEq, Prod.mk.injEq] at h
    obtain ⟨-, h2⟩ := h
    simp only [List.length_cons]
    omega
  | [] | [_] | [_, _] | [_, _, _] | [_, _, _, _] | [_, _, _, _, _]
  | [_, _, _, _, _, _] | [_, _, _, _, _, _, _] => exact absurd h (by simp)

theorem consumeFixed32_bounds {b : List Nat} {v n : Nat}
    (h : consumeFixed32 b = some (v, n)) : 1 ≤ n ∧ n ≤ b.length := by
  unfold consumeFixed32 at h
  match b with
  | b0 :: b1 :: b2 :: b3 :: rest =>
    simp only [Option.some.injEq, Prod.mk.injEq] at h
    obtain ⟨-, h2⟩ := h
    simp only [List.length_cons]
    omega
  | [] | [_] | [_, _] | [_, _, _] => exact absurd h (by simp)

theorem skipField_bounds {data : List Nat} {wireType n : Nat}
    (h : skipField data wireType = some n) : 1 ≤ n ∧ n ≤ data.length := by
  unfold skipField at h
  by_cases h0 : wireType = 0
  · rw [if_pos h0] at h
    cases hv : consumeVarint data with
    | none => rw [hv] at h; exact absurd h (by simp)
    | some p =>
      obtain ⟨v, m⟩ := p
      rw [hv] at h
      simp only [Option.map_some', Option.some.injEq] at h
      exact h ▸ consumeVarint_bounds hv
  rw [if_neg h0] at h
  by_cases h1 : wireType = 1
  · rw [if_pos h1] at h
    cases hv : consumeFixed64 data with
    | none => rw [hv] at h; exact absurd h (by simp)
    | some p =>
      obtain ⟨v, m⟩ := p
      rw [hv] at h
      simp only [Option.map_some', Option.some.injEq] at h
      exact h ▸ consumeFixed64_bounds hv
  rw [if_neg h1] at h
  by_cases h2 : wireType = 2
  · rw [if_pos h2] at h
    cases hv : consumeBytes data with
    | none => rw [hv] at h; exact absurd h (by simp)
    | some p =>
      obtain ⟨v, m⟩ := p
      rw [hv] at h
      simp only [Option.map_some', Option.some.injEq] at h
      exact h ▸ consumeBytes_bounds hv
  rw [if_neg h2] at h
  by_cases h5 : wireType = 5
  · rw [if_pos h5] at h
    cases hv : consumeFixed32 data with
    | none => rw [hv] at h; exact absurd h (by simp)
    | some p =>
      obtain ⟨v, m⟩ := p
      rw [hv] at h
      simp only [Option.map_some', Option.some.injEq] at h
      exact h ▸ consumeFixed32_bounds hv
  rw [if_neg h5] at h
  exact absurd h (by simp)

/-! ## Encode/decode roundtrip for the primitives -/

theorem appendVarintGo_fuel : ∀ (f g v : Nat), 1 ≤ f → v < 2 ^ (7 * f) → f ≤ g →
    appendVarintGo v f = appendVarintGo v g := by
  intro f
  induction f with
  | zero => intro g v h1 _ _; omega
  | succ f ih =>
    intro g v _ hv hfg
    obtain ⟨g', rfl⟩ : ∃ g', g = g' + 1 := ⟨g - 1, by omega⟩
    rw [appendVarintGo, appendVarintGo]
    by_cases hsmall : v < 128
    · rw [if_pos hsmall, if_pos hsmall]
    · rw [if_neg hsmall, if_neg hsmall]
      have hf' : 1 ≤ f := by
        rcases Nat.eq_zero_or_pos f with hf0 | hf0
        · subst hf0; omega
        · exact hf0
      have hdiv : v / 128 < 2 ^ (7 * f) := by
        have h7 : (2 : Nat) ^ (7 * (f + 1)) = 2 ^ (7 * f) * 128 := by
          rw [show 7 * (f + 1) = 7 * f + 7 by ring, pow_add]
          norm_num
        rw [h7] at hv
        omega
      rw [ih g' (v / 128) hf' hdiv (by omega)]

theorem consumeVarintGo_appendVarintGo : ∀ (f i acc v : Nat) (s : List Nat),
    1 ≤ f → f + i ≤ 9 → v < 2 ^ (7 * f) →
    consumeVarintGo (appendVarintGo v f ++ s) i acc =
      some (acc + v * 2 ^ (7 * i), i + (appendVarintGo v f).length) := by
  intro f
  induction f with
  | zero => intro i acc v s h1 _ _; omega
  | succ f ih =>
    intro i acc v s _ hfi hv
    rw [appendVarintGo]
    by_cases hsmall : v < 128
    · rw [if_pos hsmall]
      simp only [List.cons_append, List.nil_append, List.length_cons, List.length_nil]
      rw [consumeVarintGo]
      rw [if_neg (by omega : ¬ i = 9)]
      rw [Nat.mod_eq_of_lt (by omega : v < 256)]
      rw [if_pos hsmall]
    · rw [if_neg hsmall]
      have hf' : 1 ≤ f := by
        rcases Nat.eq_zero_or_pos f with hf0 | hf0
        · subst hf0; omega
        · exact hf0
      have hdiv : v / 128 < 2 ^ (7 * f) := by
        have h7 : (2 : Nat) ^ (7 * (f + 1)) = 2 ^ (7 * f) * 128 := by
          rw [show 7 * (f + 1) = 7 * f + 7 by ring, pow_add]
          norm_num
        rw [h7] at hv
        omega
      simp only [List.cons_append, List.length_cons]
      rw [consumeVarintGo]
      rw [if_neg (by omega : ¬ i = 9)]
      have hbyte : (v % 128 + 128) % 256 = v % 128 + 128 := by omega
      rw [hbyte]
      rw [if_neg (by omega : ¬ v % 128 + 128 < 128)]
      have hsub : v % 128 + 128 - 128 = v % 128 := by omega
      rw [hsub]
      rw [ih (i + 1) (acc + v % 128 * 2 ^ (7 * i)) (v / 128) s hf' (by omega) hdiv]
      have key : acc + v % 128 * 2 ^ (7 * i) + v / 128 * 2 ^ (7 * (i + 1)) =
          acc + v * 2 ^ (7 * i) := by
        have h7 : (2 : Nat) ^ (7 * (i + 1)) = 2 ^ (7 * i) * 128 := by
          rw [show 7 * (i + 1) = 7 * i + 7 by ring, pow_add]
          norm_num
        rw [h7]
        conv_rhs => rw [← Nat.div_add_mod v 128]
        ring
      rw [key]
      simp only [List.length_cons, Option.some.injEq, Prod.mk.injEq]
      exact ⟨trivial, by omega⟩

theorem consumeVarint_appendVarint (v : Nat) (s : List Nat) (hv : v < 2 ^ 63) :
    consumeVarint (appendVarint v ++ s) = some (v, (appendVarint v).length) := by
  have hv' : v < 2 ^ (7 * 9) := by
    have : (2 : Nat) ^ (7 * 9) = 2 ^ 63 := by norm_num
    omega
  unfold appendVarint consumeVarint
  rw [← appendVarintGo_fuel 9 10 v (by omega) hv' (by omega)]
  rw [consumeVarintGo_appendVarintGo 9 0 0 v s (by omega) (by omega) hv']
  simp

theorem toInt32_small {n : Nat} (h : n < 2 ^ 31) : toInt32 n = (n : Int) := by
  unfold toInt32
  rw [Nat.mod_eq_of_lt (by omega : n < 2 ^ 32)]
  rw [if_pos h]

theorem consumeTag_appendVarint {num typ : Nat} (s : List Nat)
    (h1 : 1 ≤ num) (h2 : num < 2 ^ 31) (h3 : typ < 8) :
    consumeTag (appendVarint (num * 8 + typ) ++ s) =
      some ((num : Int), typ, (appendVarint (num * 8 + typ)).length) := by
  have hlt : num * 8 + typ < 2 ^ 63 := by
    have : (2 : Nat) ^ 31 * 8 + 8 < 2 ^ 63 := by norm_num
    nlinarith
  unfold consumeTag
  rw [consumeVarint_appendVarint (num * 8 + typ) s hlt]
  dsimp only
  have hdiv : (num * 8 + typ) / 8 = num := by omega
  have hmod : (num * 8 + typ) % 8 = typ := by omega
  rw [hdiv, hmod, toInt32_small h2]
  rw [if_neg (by omega)]

theorem consumeBytes_append (p s : List Nat) (hp : p.length < 2 ^ 63) :
    consumeBytes (appendVarint p.length ++ (p ++ s)) =
      some (p, (appendVarint p.length).length + p.length) := by
  unfold consumeBytes
  rw [consumeVarint_appendVarint p.length (p ++ s) hp]
  dsimp only
  rw [List.drop_left]
  rw [if_neg (by simp)]
  rw [List.take_left]

theorem skipField_bytes_append (p s : List Nat) (hp : p.length < 2 ^ 63) :
    skipField (appendVarint p.length ++ (p ++ s)) 2 =
      some ((appendVarint p.length).length + p.length) := by
  unfold skipField
  rw [consumeBytes_append p s hp]
  simp

theorem appendVarintGo_ne_nil (v f : Nat) (hf : 1 ≤ f) : appendVarintGo v f ≠ [] := by
  obtain ⟨f', rfl⟩ : ∃ f', f = f' + 1 := ⟨f - 1, by omega⟩
  rw [appendVarintGo]
  by_cases hsmall : v < 128
  · rw [if_pos hsmall]; simp
  · rw [if_neg hsmall]; simp

/-! ## Generic walker lemmas -/

theorem walkLoop_fuel {α : Type} (im : Int → Bool) (te be : String) (z : α)
    (st : α → List Nat → α × Option String) :
    ∀ (f₁ f₂ : Nat) (data : List Nat) (acc : α),
    data.length < f₁ → data.length < f₂ →
    walkLoop im te be z st f₁ data acc = walkLoop im te be z st f₂ data acc := by
  intro f₁
  induction f₁ with
  | zero => intro f₂ data acc h1 _; omega
  | succ f₁ ih =>
    intro f₂ data acc h1 h2
    obtain ⟨g, rfl⟩ : ∃ g, f₂ = g + 1 := ⟨f₂ - 1, by omega⟩
    rw [walkLoop, walkLoop]
    by_cases hemp : data.isEmpty
    · rw [if_pos hemp, if_pos hemp]
    rw [if_neg hemp, if_neg hemp]
    cases htag : consumeTag data with
    | none => rfl
    | some t =>
      obtain ⟨num, typ, tagLen⟩ := t
      have htb := consumeTag_bounds htag
      dsimp only
      by_cases hm : (im num && typ == 2) = true
      · rw [if_pos hm, if_pos hm]
        cases hb : consumeBytes (data.drop tagLen) with
        | none => rfl
        | some mb =>
          obtain ⟨msg, n⟩ := mb
          dsimp only
          cases hst : st acc msg with
          | mk acc' e =>
            cases e with
            | some e => rfl
            | none =>
              dsimp only
              rw [ih g ((data.drop tagLen).drop n) acc'
                (by simp only [List.length_drop]; omega)
                (by simp only [List.length_drop]; omega)]
      · rw [if_neg hm, if_neg hm]
        cases hs : skipField (data.drop tagLen) typ with
        | none => rfl
        | some n =>
          dsimp only
          rw [ih g ((data.drop tagLen).drop n) acc
            (by simp only [List.length_drop]; omega)
            (by simp only [List.length_drop]; omega)]

theorem walkLoop_error_zero {α : Type} (im : Int → Bool) (te be : String) (z : α)
    (st : α → List Nat → α × Option String) :
    ∀ (f : Nat) (data : List Nat) (acc : α),
    (walkLoop im te be z st f data acc).2.1 ≠ none →
    (walkLoop im te be z st f data acc).1 = z := by
  intro f
  induction f with
  | zero => intro data acc _; rfl
  | succ f ih =>
    intro data acc herr
    rw [walkLoop] at herr ⊢
    by_cases hemp : data.isEmpty
    · rw [if_pos hemp] at herr; exact absurd rfl herr
    rw [if_neg hemp] at herr ⊢
    cases htag : consumeTag data with
    | none => rfl
    | some t =>
      obtain ⟨num, typ, tagLen⟩ := t
      rw [htag] at herr
      dsimp only at herr ⊢
      by_cases hm : (im num && typ == 2) = true
      · rw [if_pos hm] at herr ⊢
        cases hb : consumeBytes (data.drop tagLen) with
        | none => rfl
        | some mb =>
          obtain ⟨msg, n⟩ := mb
          rw [hb] at herr
          dsimp only at herr ⊢
          cases hst : st acc msg with
          | mk acc' e =>
            cases e with
            | some e => rfl
            | none =>
              rw [hst] at herr
              dsimp only at herr ⊢
              exact ih ((data.drop tagLen).drop n) acc' herr
      · rw [if_neg hm] at herr ⊢
        cases hs : skipField (data.drop tagLen) typ with
        | none => rfl
        | some n =>
          rw [hs] at herr
          dsimp only at herr ⊢
          exact ih ((data.drop tagLen).drop n) acc herr

theorem walkLoop_consumed {α : Type} (im : Int → Bool) (te be : String) (z : α)
    (st : α → List Nat → α × Option String) :
    ∀ (f : Nat) (data : List Nat) (acc : α),
    data.length < f →
    (walkLoop im te be z st f data acc).2.1 = none →
    (walkLoop im te be z st f data acc).2.2 = data.length := by
  intro f
  induction f with
  | zero => intro data acc h1 _; omega
  | succ f ih =>
    intro data acc h1 hok
    rw [walkLoop] at hok ⊢
    by_cases hemp : data.isEmpty
    · rw [if_pos hemp] at hok ⊢
      have : data = [] := List.isEmpty_iff.mp hemp
      simp [this]
    rw [if_neg hemp] at hok ⊢
    cases htag : consumeTag data with
    | none => rw [htag] at hok; exact absurd hok (by simp)
    | some t =>
      obtain ⟨num, typ, tagLen⟩ := t
      have htb := consumeTag_bounds htag
      rw [htag] at hok
      dsimp only at hok ⊢
      by_cases hm : (im num && typ == 2) = true
      · rw [if_pos hm] at hok ⊢
        cases hb : consumeBytes (data.drop tagLen) with
        | none => rw [hb] at hok; exact absurd hok (by simp)
        | some mb =>
          obtain ⟨msg, n⟩ := mb
          have hbb := consumeBytes_bounds hb
          rw [List.length_drop] at hbb
          rw [hb] at hok
          dsimp only at hok ⊢
          cases hst : st acc msg with
          | mk acc' e =>
            cases e with
            | some e => rw [hst] at hok; exact absurd hok (by simp)
            | none =>
              rw [hst] at hok
              dsimp only at hok ⊢
              have hrec := ih ((data.drop tagLen).drop n) acc'
                (by simp only [List.length_drop]; omega) hok
              rw [addConsumed, hrec]
              simp only [List.length_drop]
              omega
      · rw [if_neg hm] at hok ⊢
        cases hs : skipField (data.drop tagLen) typ with
        | none => rw [hs] at hok; exact absurd hok (by simp)
        | some n =>
          have hsb := skipField_bounds hs
          rw [List.length_drop] at hsb
          rw [hs] at hok
          dsimp only at hok ⊢
          have hrec := ih ((data.drop tagLen).drop n) acc
            (by simp only [List.length_drop]; omega) hok
          rw [addConsumed, hrec]
          simp only [List.length_drop]
          omega

/-! ## Compositional behavior of the walk on encoded fields -/

theorem encodeField_eq (num : Nat) (p : List Nat) :
    encodeField num p =
      appendVarint (num * 8 + 2) ++ (appendVarint p.length ++ (p ++ [])) := by
  unfold encodeField appendBytes appendTag
  simp [List.append_assoc]

theorem encodeField_append (num : Nat) (p rest : List Nat) :
    encodeField num p ++ rest =
      appendVarint (num * 8 + 2) ++ (appendVarint p.length ++ (p ++ rest)) := by
  unfold encodeField appendBytes appendTag
  simp [List.append_assoc]

theorem encodeField_length (num : Nat) (p : List Nat) :
    (encodeField num p).length =
      (appendVarint (num * 8 + 2)).length + ((appendVarint p.length).length + p.length) := by
  rw [encodeField_eq]
  simp [List.length_append]

theorem appendVarint_ne_nil (v : Nat) : appendVarint v ≠ [] :=
  appendVarintGo_ne_nil v 10 (by omega)

theorem appendVarint_length_pos (v : Nat) : 0 < (appendVarint v).length :=
  List.length_pos.mpr (appendVarint_ne_nil v)

theorem walk_nil {α : Type} (im : Int → Bool) (te be : String) (z : α)
    (st : α → List Nat → α × Option String) (acc : α) :
    walk im te be z st [] acc = (acc, none, 0) := rfl

theorem walk_match_ok {α : Type} (im : Int → Bool) (te be : String) (z : α)
    (st : α → List Nat → α × Option String) (num : Nat) (p rest : List Nat)
    (acc acc' : α) (h1 : 1 ≤ num) (h2 : num < 2 ^ 31) (hp : p.length < 2 ^ 63)
    (hm : im (num : Int) = true) (hst : st acc p = (acc', none)) :
    walk im te be z st (encodeField num p ++ rest) acc =
      addConsumed (encodeField num p).length (walk im te be z st rest acc') := by
  have hemp : ¬((appendVarint (num * 8 + 2) ++
      (appendVarint p.length ++ (p ++ rest))).isEmpty = true) := by
    simp only [List.isEmpty_iff, List.append_eq_nil]
    intro h
    exact appendVarint_ne_nil _ h.1
  have hdrop1 : (appendVarint (num * 8 + 2) ++
      (appendVarint p.length ++ (p ++ rest))).drop (appendVarint (num * 8 + 2)).length =
      appendVarint p.length ++ (p ++ rest) := List.drop_left _ _
  have hdrop2 : (appendVarint p.length ++ (p ++ rest)).drop
      ((appendVarint p.length).length + p.length) = rest := by
    rw [show (appendVarint p.length).length + p.length =
      (appendVarint p.length ++ p).length by simp [List.length_append]]
    rw [← List.append_assoc]
    exact List.drop_left _ _
  unfold walk
  rw [encodeField_append]
  rw [walkLoop]
  rw [if_neg hemp]
  rw [consumeTag_appendVarint (appendVarint p.length ++ (p ++ rest)) h1 h2 (by omega)]
  dsimp only
  rw [hm]
  simp only [Bool.true_and, beq_self_eq_true, if_true]
  rw [hdrop1]
  rw [consumeBytes_append p rest hp]
  dsimp only
  rw [hst]
  dsimp only
  rw [hdrop2]
  have hfuel : rest.length <
      (appendVarint (num * 8 + 2) ++ (appendVarint p.length ++ (p ++ rest))).length := by
    simp only [List.length_append]
    have := appendVarint_length_pos (num * 8 + 2)
    omega
  rw [walkLoop_fuel im te be z st _ (rest.length + 1) rest acc' hfuel (by omega)]
  rw [encodeField_length]

theorem walk_match_err {α : Type} (im : Int → Bool) (te be : String) (z : α)
    (st : α → List Nat → α × Option String) (num : Nat) (p rest : List Nat)
    (acc acc₀ : α) (e : String) (h1 : 1 ≤ num) (h2 : num < 2 ^ 31)
    (hp : p.length < 2 ^ 63) (hm : im (num : Int) = true)
    (hst : st acc p = (acc₀, some e)) :
    walk im te be z st (encodeField num p ++ rest) acc = (z, some e, 0) := by
  have hemp : ¬((appendVarint (num * 8 + 2) ++
      (appendVarint p.length ++ (p ++ rest))).isEmpty = true) := by
    simp only [List.isEmpty_iff, List.append_eq_nil]
    intro h
    exact appendVarint_ne_nil _ h.1
  have hdrop1 : (appendVarint (num * 8 + 2) ++
      (appendVarint p.length ++ (p ++ rest))).drop (appendVarint (num * 8 + 2)).length =
      appendVarint p.length ++ (p ++ rest) := List.drop_left _ _
  unfold walk
  rw [encodeField_append]
  rw [walkLoop]
  rw [if_neg hemp]
  rw [consumeTag_appendVarint (appendVarint p.length ++ (p ++ rest)) h1 h2 (by omega)]
  dsimp only
  rw [hm]
  simp only [Bool.true_and, beq_self_eq_true, if_true]
  rw [hdrop1]
  rw [consumeBytes_append p rest hp]
  dsimp only
  rw [hst]

theorem walk_skip_enc {α : Type} (im : Int → Bool) (te be : String) (z : α)
    (st : α → List Nat → α × Option String) (num : Nat) (p rest : List Nat)
    (acc : α) (h1 : 1 ≤ num) (h2 : num < 2 ^ 31) (hp : p.length < 2 ^ 63)
    (hm : im (num : Int) = false) :
    walk im te be z st (encodeField num p ++ rest) acc =
      addConsumed (encodeField num p).length (walk im te be z st rest acc) := by
  have hemp : ¬((appendVarint (num * 8 + 2) ++
      (appendVarint p.length ++ (p ++ rest))).isEmpty = true) := by
    simp only [List.isEmpty_iff, List.append_eq_nil]
    intro h
    exact appendVarint_ne_nil _ h.1
  have hdrop1 : (appendVarint (num * 8 + 2) ++
      (appendVarint p.length ++ (p ++ rest))).drop (appendVarint (num * 8 + 2)).length =
      appendVarint p.length ++ (p ++ rest) := List.drop_left _ _
  have hdrop2 : (appendVarint p.length ++ (p ++ rest)).drop
      ((appendVarint p.length).length + p.length) = rest := by
    rw [show (appendVarint p.length).length + p.length =
      (appendVarint p.length ++ p).length by simp [List.length_append]]
    rw [← List.append_assoc]
    exact List.drop_left _ _
  unfold walk
  rw [encodeField_append]
  rw [walkLoop]
  rw [if_neg hemp]
  rw [consumeTag_appendVarint (appendVarint p.length ++ (p ++ rest)) h1 h2 (by omega)]
  dsimp only
  rw [hm]
  simp only [Bool.false_and]
  rw [if_neg (by simp)]
  rw [hdrop1]
  rw [skipField_bytes_append p rest hp]
  dsimp only
  rw [hdrop2]
  have hfuel : rest.length <
      (appendVarint (num * 8 + 2) ++ (appendVarint p.length ++ (p ++ rest))).length := by
    simp only [List.length_append]
    have := appendVarint_length_pos (num * 8 + 2)
    omega
  rw [walkLoop_fuel im te be z st _ (rest.length + 1) rest acc hfuel (by omega)]
  rw [encodeField_length]

/-! ## Counting agrees with extraction (same walk, different step) -/

theorem walkLoop_count_extract (im : Int → Bool) (te be : String)
    (f : List Nat → Nat × Option String) :
    ∀ (fuel : Nat) (data : List Nat) (c : Nat) (acc : List (List Nat)) (a k : Nat),
    walkLoop im te be 0 (stepCount f) fuel data c = (a, none, k) →
    ∃ rs, walkLoop im te be [] stepCollect fuel data acc = (acc ++ rs, none, k) ∧
      a = c + (rs.map (fun r => (f r).1)).sum ∧
      ∀ r ∈ rs, (f r).2 = none := by
  intro fuel
  induction fuel with
  | zero =>
    intro data c acc a k h
    rw [walkLoop] at h
    exact absurd h (by simp)
  | succ fuel ih =>
    intro data c acc a k h
    rw [walkLoop] at h ⊢
    by_cases hemp : data.isEmpty
    · rw [if_pos hemp] at h ⊢
      simp only [Prod.mk.injEq] at h
      obtain ⟨ha, -, hk⟩ := h
      exact ⟨[], by simp [ha, hk], by simp [ha], by simp⟩
    rw [if_neg hemp] at h ⊢
    cases htag : consumeTag data with
    | none => rw [htag] at h; exact absurd h (by simp)
    | some t =>
      obtain ⟨num, typ, tagLen⟩ := t
      rw [htag] at h
      dsimp only at h ⊢
      by_cases hm : (im num && typ == 2) = true
      · rw [if_pos hm] at h ⊢
        cases hb : consumeBytes (data.drop tagLen) with
        | none => rw [hb] at h; exact absurd h (by simp)
        | some mb =>
          obtain ⟨msg, n⟩ := mb
          rw [hb] at h
          dsimp only at h ⊢
          cases hfm : f msg with
          | mk cm eo =>
            cases eo with
            | some e =>
              rw [show stepCount f c msg = (c, some e) by
                unfold stepCount; rw [hfm]] at h
              exact absurd h (by simp)
            | none =>
              rw [show stepCount f c msg = (c + cm, none) by
                unfold stepCount; rw [hfm]] at h
              dsimp only at h
              rcases hr : walkLoop im te be 0 (stepCount f) fuel
                ((data.drop tagLen).drop n) (c + cm) with ⟨a', e', k'⟩
              rw [hr] at h
              simp only [addConsumed, Prod.mk.injEq] at h
              obtain ⟨ha, he, hk⟩ := h
              subst ha
              cases e' with
              | some e => exact absurd he (by simp)
              | none =>
                obtain ⟨rs', hext, hsum, hmem⟩ :=
                  ih ((data.drop tagLen).drop n) (c + cm) (acc ++ [msg]) a' k' hr
                refine ⟨msg :: rs', ?_, ?_, ?_⟩
                · rw [show stepCollect acc msg = (acc ++ [msg], none) from rfl]
                  dsimp only
                  rw [hext]
                  simp only [addConsumed]
                  simp only [List.append_assoc, List.singleton_append]
                  exact congrArg _ (congrArg _ hk)
                · rw [hsum]
                  simp only [List.map_cons, List.sum_cons, hfm]
                  omega
                · intro r hrm
                  rcases List.mem_cons.mp hrm with hr1 | hr2
                  · subst hr1; rw [hfm]
                  · exact hmem r hr2
      · rw [if_neg hm] at h ⊢
        cases hs : skipField (data.drop tagLen) typ with
        | none => rw [hs] at h; exact absurd h (by simp)
        | some n =>
          rw [hs] at h
          dsimp only at h ⊢
          rcases hr : walkLoop im te be 0 (stepCount f) fuel
            ((data.drop tagLen).drop n) c with ⟨a', e', k'⟩
          rw [hr] at h
          simp only [addConsumed, Prod.mk.injEq] at h
          obtain ⟨ha, he, hk⟩ := h
          subst ha
          cases e' with
          | some e => exact absurd he (by simp)
          | none =>
            obtain ⟨rs', hext, hsum, hmem⟩ :=
              ih ((data.drop tagLen).drop n) c acc a' k' hr
            refine ⟨rs', ?_, hsum, hmem⟩
            rw [hext]
            simp only [addConsumed]
            exact congrArg _ (congrArg _ hk)

/-! ## Counting over well-formed encoded requests (refinement, metrics) -/

theorem length_mem_flatten {β : Type} (f : β → List Nat) (xs : List β) (x : β)
    (hx : x ∈ xs) : (f x).length ≤ ((xs.map f).flatten).length := by
  rw [List.length_flatten, List.map_map]
  exact List.single_le_sum (by intro y _; omega) _
    (List.mem_map.mpr ⟨x, hx, rfl⟩)

theorem payload_length_lt (num : Nat) (p : List Nat) :
    p.length < (encodeField num p).length := by
  rw [encodeField_length]
  have := appendVarint_length_pos (num * 8 + 2)
  omega

theorem walkDataPoints_enc : ∀ (dps : List (List Nat)) (acc : Nat),
    (encodeDataPoints dps).length < 2 ^ 63 →
    walk (fun num => num == 1) "malformed protobuf tag in metric data points"
      "invalid bytes in DataPoints" 0 (fun acc _ => (acc + 1, none))
      (encodeDataPoints dps) acc =
    (acc + dps.length, none, (encodeDataPoints dps).length) := by
  intro dps
  induction dps with
  | nil =>
    intro acc _
    simp only [show encodeDataPoints [] = ([] : List Nat) from rfl]
    rw [walk_nil]
    simp [specCountMetric]
  | cons p rest ih =>
    intro acc hlen
    have hcons : encodeDataPoints (p :: rest) =
        encodeField 1 p ++ encodeDataPoints rest := by
      unfold encodeDataPoints
      rw [List.map_cons, List.flatten_cons]
    rw [hcons] at hlen ⊢
    rw [List.length_append] at hlen
    have hp : p.length < 2 ^ 63 :=
      lt_of_lt_of_le (payload_length_lt 1 p) (by omega)
    rw [walk_match_ok _ _ _ _ _ 1 p _ acc (acc + 1) (by omega) (by norm_num) hp
      (by decide) rfl]
    rw [ih (acc + 1) (by omega)]
    simp only [addConsumed, List.length_append, List.length_cons, Prod.mk.injEq]
    exact ⟨by omega, trivial⟩

theorem walkInMetric_enc : ∀ (vs : List MetricVariant) (acc : Nat),
    (encodeMetric vs).length < 2 ^ 63 →
    (∀ v ∈ vs, v.num = 5 ∨ v.num = 7 ∨ v.num = 9 ∨ v.num = 10 ∨ v.num = 11) →
    walk (fun num => num == 5 || num == 7 || num == 9 || num == 10 || num == 11)
      "malformed protobuf tag in Metric" "invalid bytes in metric data" 0
      (stepCount countDataPoints) (encodeMetric vs) acc =
    (acc + specCountMetric vs, none, (encodeMetric vs).length) := by
  intro vs
  induction vs with
  | nil =>
    intro acc _ _
    simp only [show encodeMetric [] = ([] : List Nat) from rfl]
    rw [walk_nil]
    simp [specCountMetric]
  | cons v rest ih =>
    intro acc hlen hvalid
    have hcons : encodeMetric (v :: rest) =
        encodeField v.num (encodeDataPoints v.dps) ++ encodeMetric rest := by
      unfold encodeMetric
      rw [List.map_cons, List.flatten_cons]
    rw [hcons] at hlen ⊢
    rw [List.length_append] at hlen
    have hnum := hvalid v (List.mem_cons_self v rest)
    have hpl : (encodeDataPoints v.dps).length < 2 ^ 63 :=
      lt_of_lt_of_le (payload_length_lt v.num (encodeDataPoints v.dps)) (by omega)
    have hmatch : (fun num => num == 5 || num == 7 || num == 9 || num == 10 || num == 11)
        ((v.num : Nat) : Int) = true := by
      rcases hnum with h | h | h | h | h <;> rw [h] <;> decide
    have hdp : countDataPoints (encodeDataPoints v.dps) = (v.dps.length, none) := by
      unfold countDataPoints
      rw [walkDataPoints_enc v.dps 0 hpl]
      simp
    have hst : stepCount countDataPoints acc (encodeDataPoints v.dps) =
        (acc + v.dps.length, none) := by
      unfold stepCount
      rw [hdp]
    rw [walk_match_ok _ _ _ _ _ v.num (encodeDataPoints v.dps) _ acc
      (acc + v.dps.length) (by omega) (by rcases hnum with h | h | h | h | h <;> omega)
      hpl hmatch hst]
    rw [ih (acc + v.dps.length) (by omega)
      (fun w hw => hvalid w (List.mem_cons_of_mem v hw))]
    simp only [addConsumed, List.length_append, Prod.mk.injEq]
    constructor
    · unfold specCountMetric
      simp only [List.map_cons, List.sum_cons]
      omega
    · trivial

theorem walkInScopeMetrics_enc : ∀ (ms : List (List MetricVariant)) (acc : Nat),
    (encodeScopeMetrics ms).length < 2 ^ 63 →
    (∀ m ∈ ms, ∀ v ∈ m, v.num = 5 ∨ v.num = 7 ∨ v.num = 9 ∨ v.num = 10 ∨ v.num = 11) →
    walk (fun num => num == 2) "malformed protobuf tag in ScopeMetrics"
      "invalid bytes in Metrics" 0 (stepCount countInMetric)
      (encodeScopeMetrics ms) acc =
    (acc + specCountScope ms, none, (encodeScopeMetrics ms).length) := by
  intro ms
  induction ms with
  | nil =>
    intro acc _ _
    simp only [show encodeScopeMetrics [] = ([] : List Nat) from rfl]
    rw [walk_nil]
    simp [specCountScope]
  | cons m rest ih =>
    intro acc hlen hvalid
    have hcons : encodeScopeMetrics (m :: rest) =
        encodeField 2 (encodeMetric m) ++ encodeScopeMetrics rest := by
      unfold encodeScopeMetrics
      rw [List.map_cons, List.flatten_cons]
    rw [hcons] at hlen ⊢
    rw [List.length_append] at hlen
    have hpl : (encodeMetric m).length < 2 ^ 63 :=
      lt_of_lt_of_le (payload_length_lt 2 (encodeMetric m)) (by omega)
    have hin : countInMetric (encodeMetric m) = (specCountMetric m, none) := by
      unfold countInMetric
      rw [walkInMetric_enc m 0 hpl (hvalid m (List.mem_cons_self m rest))]
      simp
    have hst : stepCount countInMetric acc (encodeMetric m) =
        (acc + specCountMetric m, none) := by
      unfold stepCount
      rw [hin]
    rw [walk_match_ok _ _ _ _ _ 2 (encodeMetric m) _ acc
      (acc + specCountMetric m) (by omega) (by norm_num) hpl (by decide) hst]
    rw [ih (acc + specCountMetric m) (by omega)
      (fun w hw => hvalid w (List.mem_cons_of_mem m hw))]
    simp only [addConsumed, List.length_append, Prod.mk.injEq]
    constructor
    · unfold specCountScope
      simp only [List.map_cons, List.sum_cons]
      omega
    · trivial

theorem walkInResourceMetrics_enc : ∀ (ss : List (List (List MetricVariant))) (acc : Nat),
    (encodeResourceMetrics ss).length < 2 ^ 63 →
    (∀ s ∈ ss, ∀ m ∈ s, ∀ v ∈ m,
      v.num = 5 ∨ v.num = 7 ∨ v.num = 9 ∨ v.num = 10 ∨ v.num = 11) →
    walk (fun num => num == 2) "malformed protobuf tag in ResourceMetrics"
      "invalid bytes in ScopeMetrics" 0 (stepCount countInScopeMetrics)
      (encodeResourceMetrics ss) acc =
    (acc + specCountResource ss, none, (encodeResourceMetrics ss).length) := by
  intro ss
  induction ss with
  | nil =>
    intro acc _ _
    simp only [show encodeResourceMetrics [] = ([] : List Nat) from rfl]
    rw [walk_nil]
    simp [specCountResource]
  | cons s rest ih =>
    intro acc hlen hvalid
    have hcons : encodeResourceMetrics (s :: rest) =
        encodeField 2 (encodeScopeMetrics s) ++ encodeResourceMetrics rest := by
      unfold encodeResourceMetrics
      rw [List.map_cons, List.flatten_cons]
    rw [hcons] at hlen ⊢
    rw [List.length_append] at hlen
    have hpl : (encodeScopeMetrics s).length < 2 ^ 63 :=
      lt_of_lt_of_le (payload_length_lt 2 (encodeScopeMetrics s)) (by omega)
    have hin : countInScopeMetrics (encodeScopeMetrics s) = (specCountScope s, none) := by
      unfold countInScopeMetrics
      rw [walkInScopeMetrics_enc s 0 hpl (hvalid s (List.mem_cons_self s rest))]
      simp
    have hst : stepCount countInScopeMetrics acc (encodeScopeMetrics s) =
        (acc + specCountScope s, none) := by
      unfold stepCount
      rw [hin]
    rw [walk_match_ok _ _ _ _ _ 2 (encodeScopeMetrics s) _ acc
      (acc + specCountScope s) (by omega) (by norm_num) hpl (by decide) hst]
    rw [ih (acc + specCountScope s) (by omega)
      (fun w hw => hvalid w (List.mem_cons_of_mem s hw))]
    simp only [addConsumed, List.length_append, Prod.mk.injEq]
    constructor
    · unfold specCountResource
      simp only [List.map_cons, List.sum_cons]
      omega
    · trivial

theorem walkRequest_enc : ∀ (rs : List (List (List (List MetricVariant)))) (acc : Nat),
    (encodeRequest rs).length < 2 ^ 63 →
    validVariants rs →
    walk (fun num => num == 1) "malformed protobuf tag in ExportMetricsServiceRequest"
      "invalid bytes in ResourceMetrics" 0 (stepCount countInResourceMetrics)
      (encodeRequest rs) acc =
    (acc + specCountRequest rs, none, (encodeRequest rs).length) := by
  intro rs
  induction rs with
  | nil =>
    intro acc _ _
    simp only [show encodeRequest [] = ([] : List Nat) from rfl]
    rw [walk_nil]
    simp [specCountRequest]
  | cons r rest ih =>
    intro acc hlen hvalid
    have hcons : encodeRequest (r :: rest) =
        encodeField 1 (encodeResourceMetrics r) ++ encodeRequest rest := by
      unfold encodeRequest
      rw [List.map_cons, List.flatten_cons]
    rw [hcons] at hlen ⊢
    rw [List.length_append] at hlen
    have hpl : (encodeResourceMetrics r).length < 2 ^ 63 :=
      lt_of_lt_of_le (payload_length_lt 1 (encodeResourceMetrics r)) (by omega)
    have hin : countInResourceMetrics (encodeResourceMetrics r) =
        (specCountResource r, none) := by
      unfold countInResourceMetrics
      rw [walkInResourceMetrics_enc r 0 hpl (hvalid r (List.mem_cons_self r rest))]
      simp
    have hst : stepCount countInResourceMetrics acc (encodeResourceMetrics r) =
        (acc + specCountResource r, none) := by
      unfold stepCount
      rw [hin]
    rw [walk_match_ok _ _ _ _ _ 1 (encodeResourceMetrics r) _ acc
      (acc + specCountResource r) (by omega) (by norm_num) hpl (by decide) hst]
    rw [ih (acc + specCountResource r) (by omega)
      (fun w hw => hvalid w (List.mem_cons_of_mem r hw))]
    simp only [addConsumed, List.length_append, Prod.mk.injEq]
    constructor
    · unfold specCountRequest
      simp only [List.map_cons, List.sum_cons]
      omega
    · trivial

/-! ## Single-step unfolding of the walk at the head field -/

theorem consumeTag_ne_nil {data : List Nat} {num : Int} {typ tagLen : Nat}
    (h : consumeTag data = some (num, typ, tagLen)) : data ≠ [] := by
  intro hd
  subst hd
  rw [show consumeTag [] = none from rfl] at h
  exact absurd h (by simp)

theorem isEmpty_false_of_ne_nil {data : List Nat} (h : data ≠ []) :
    ¬(data.isEmpty = true) := by
  simp [List.isEmpty_iff, h]

theorem walk_head_tagErr {α : Type} (im : Int → Bool) (te be : String) (z : α)
    (st : α → List Nat → α × Option String) (data : List Nat) (acc : α)
    (hne : data ≠ []) (htag : consumeTag data = none) :
    walk im te be z st data acc = (z, some te, 0) := by
  unfold walk
  rw [walkLoop, if_neg (isEmpty_false_of_ne_nil hne), htag]

theorem walk_head_bytesErr {α : Type} (im : Int → Bool) (te be : String) (z : α)
    (st : α → List Nat → α × Option String) (data : List Nat) (acc : α)
    (num : Int) (typ tagLen : Nat)
    (htag : consumeTag data = some (num, typ, tagLen))
    (hm : (im num && typ == 2) = true)
    (hb : consumeBytes (data.drop tagLen) = none) :
    walk im te be z st data acc = (z, some be, 0) := by
  unfold walk
  rw [walkLoop, if_neg (isEmpty_false_of_ne_nil (consumeTag_ne_nil htag)), htag]
  dsimp only
  rw [if_pos hm, hb]

theorem walk_head_stepErr {α : Type} (im : Int → Bool) (te be : String) (z : α)
    (st : α → List Nat → α × Option String) (data : List Nat) (acc a₀ : α)
    (num : Int) (typ tagLen n : Nat) (msg : List Nat) (e : String)
    (htag : consumeTag data = some (num, typ, tagLen))
    (hm : (im num && typ == 2) = true)
    (hb : consumeBytes (data.drop tagLen) = some (msg, n))
    (hst : st acc msg = (a₀, some e)) :
    walk im te be z st data acc = (z, some e, 0) := by
  unfold walk
  rw [walkLoop, if_neg (isEmpty_false_of_ne_nil (consumeTag_ne_nil htag)), htag]
  dsimp only
  rw [if_pos hm, hb]
  dsimp only
  rw [hst]

theorem walk_head_match_ok {α : Type} (im : Int → Bool) (te be : String) (z : α)
    (st : α → List Nat → α × Option String) (data : List Nat) (acc acc' : α)
    (num : Int) (typ tagLen n : Nat) (msg : List Nat)
    (htag : consumeTag data = some (num, typ, tagLen))
    (hm : (im num && typ == 2) = true)
    (hb : consumeBytes (data.drop tagLen) = some (msg, n))
    (hst : st acc msg = (acc', none)) :
    walk im te be z st data acc =
      addConsumed (tagLen + n) (walk im te be z st ((data.drop tagLen).drop n) acc') := by
  have htb := consumeTag_bounds htag
  have hbb := consumeBytes_bounds hb
  rw [List.length_drop] at hbb
  unfold walk
  rw [walkLoop, if_neg (isEmpty_false_of_ne_nil (consumeTag_ne_nil htag)), htag]
  dsimp only
  rw [if_pos hm, hb]
  dsimp only
  rw [hst]
  dsimp only
  rw [walkLoop_fuel im te be z st data.length (((data.drop tagLen).drop n).length + 1)
    ((data.drop tagLen).drop n) acc'
    (by simp only [List.length_drop]; omega) (by omega)]

theorem walk_head_skip_ok {α : Type} (im : Int → Bool) (te be : String) (z : α)
    (st : α → List Nat → α × Option String) (data : List Nat) (acc : α)
    (num : Int) (typ tagLen n : Nat)
    (htag : consumeTag data = some (num, typ, tagLen))
    (hm : (im num && typ == 2) = false)
    (hs : skipField (data.drop tagLen) typ = some n) :
    walk im te be z st data acc =
      addConsumed (tagLen + n) (walk im te be z st ((data.drop tagLen).drop n) acc) := by
  have htb := consumeTag_bounds htag
  have hsb := skipField_bounds hs
  rw [List.length_drop] at hsb
  unfold walk
  rw [walkLoop, if_neg (isEmpty_false_of_ne_nil (consumeTag_ne_nil htag)), htag]
  dsimp only
  rw [hm]
  rw [if_neg (by simp)]
  rw [hs]
  dsimp only
  rw [walkLoop_fuel im te be z st data.length (((data.drop tagLen).drop n).length + 1)
    ((data.drop tagLen).drop n) acc
    (by simp only [List.length_drop]; omega) (by omega)]

theorem walk_head_skipErr {α : Type} (im : Int → Bool) (te be : String) (z : α)
    (st : α → List Nat → α × Option String) (data : List Nat) (acc : α)
    (num : Int) (typ tagLen : Nat)
    (htag : consumeTag data = some (num, typ, tagLen))
    (hm : (im num && typ == 2) = false)
    (hs : skipField (data.drop tagLen) typ = none) :
    walk im te be z st data acc = (z, some "failed to skip field", 0) := by
  unfold walk
  rw [walkLoop, if_neg (isEmpty_false_of_ne_nil (consumeTag_ne_nil htag)), htag]
  dsimp only
  rw [hm]
  rw [if_neg (by simp)]
  rw [hs]

/-! ## Decoding small concrete heads -/

theorem consumeVarint_single {b : Nat} (rest : List Nat) (hb : b < 128) :
    consumeVarint (b :: rest) = some (b, 1) := by
  unfold consumeVarint
  rw [consumeVarintGo]
  rw [Nat.mod_eq_of_lt (by omega : b < 256)]
  rw [if_neg (by omega : ¬ (0 : Nat) = 9), if_pos hb]
  norm_num

theorem consumeTag_single {b : Nat} (rest : List Nat) (hb : b < 128) (hb8 : 8 ≤ b) :
    consumeTag (b :: rest) = some (((b / 8 : Nat) : Int), b % 8, 1) := by
  unfold consumeTag
  rw [consumeVarint_single rest hb]
  dsimp only
  rw [toInt32_small (by omega : b / 8 < 2 ^ 31)]
  rw [if_neg (by omega)]

theorem consumeBytes_cons {n : Nat} (l : List Nat) (hn : n < 128)
    (hl : n ≤ l.length) : consumeBytes (n :: l) = some (l.take n, 1 + n) := by
  unfold consumeBytes
  rw [consumeVarint_single l hn]
  dsimp only
  rw [if_neg (by simp only [List.drop_succ_cons, List.drop_zero]; omega)]
  rw [List.drop_succ_cons, List.drop_zero]

theorem walk_pair_error_zero {α : Type} (im : Int → Bool) (te be : String) (z : α)
    (st : α → List Nat → α × Option String) (data : List Nat) (acc : α)
    {c : α} {e : String}
    (h : ((walk im te be z st data acc).1, (walk im te be z st data acc).2.1) =
      (c, some e)) : c = z := by
  simp only [Prod.mk.injEq] at h
  obtain ⟨h1, h2⟩ := h
  subst h1
  have h2' : (walkLoop im te be z st (data.length + 1) data acc).2.1 = some e := h2
  exact walkLoop_error_zero im te be z st _ data acc (by rw [h2']; simp)

/-- Pair-level form of `walkLoop_count_extract`: if a counting pass
(step = sum a nested traversal) succeeds, the extraction pass over the
same view succeeds with the matched payloads in encoding order, the
count is the sum of the nested counts over them, and each succeeds. -/
theorem count_extract_general (im : Int → Bool) (te be : String)
    (inner : List Nat → Nat × Option String) (data : List Nat) (c : Nat)
    (h : ((walk im te be 0 (stepCount inner) data 0).1,
      (walk im te be 0 (stepCount inner) data 0).2.1) = (c, none)) :
    ∃ rs, ((walk im te be [] stepCollect data []).1,
        (walk im te be [] stepCollect data []).2.1) = (rs, none) ∧
      c = (rs.map (fun r => (inner r).1)).sum ∧
      ∀ r ∈ rs, (inner r).2 = none := by
  simp only [Prod.mk.injEq] at h
  obtain ⟨h1, h2⟩ := h
  have hw : walkLoop im te be 0 (stepCount inner) (data.length + 1) data 0 =
      (c, none, (walk im te be 0 (stepCount inner) data 0).2.2) := by
    rw [← h1, ← h2]
    rfl
  obtain ⟨rs, hext, hsum, hmem⟩ :=
    walkLoop_count_extract im te be inner (data.length + 1) data 0 [] c
      (walk im te be 0 (stepCount inner) data 0).2.2 hw
  refine ⟨rs, ?_, by omega, hmem⟩
  have hext' : walk im te be [] stepCollect data [] =
      (rs, none, (walk im te be 0 (stepCount inner) data 0).2.2) := by
    rw [show walk im te be [] stepCollect data [] =
      walkLoop im te be [] stepCollect (data.length + 1) data [] from rfl, hext]
    simp
  rw [hext']

/-! ## Head-step behavior of the resource extraction scan -/

theorem extractResourceMessageGo_fuel :
    ∀ (f₁ f₂ : Nat) (data : List Nat) (mt : String),
    data.length < f₁ → data.length < f₂ →
    extractResourceMessageGo f₁ data mt = extractResourceMessageGo f₂ data mt := by
  intro f₁
  induction f₁ with
  | zero => intro f₂ data mt h1 _; omega
  | succ f₁ ih =>
    intro f₂ data mt h1 h2
    obtain ⟨g, rfl⟩ : ∃ g, f₂ = g + 1 := ⟨f₂ - 1, by omega⟩
    rw [extractResourceMessageGo, extractResourceMessageGo]
    by_cases hemp : data.isEmpty
    · rw [if_pos hemp, if_pos hemp]
    rw [if_neg hemp, if_neg hemp]
    cases htag : consumeTag data with
    | none => rfl
    | some t =>
      obtain ⟨num, typ, tagLen⟩ := t
      have htb := consumeTag_bounds htag
      dsimp only
      by_cases hm : (num == 1 && typ == 2) = true
      · rw [if_pos hm, if_pos hm]
      · rw [if_neg hm, if_neg hm]
        cases hs : skipField (data.drop tagLen) typ with
        | none => rfl
        | some n =>
          dsimp only
          rw [ih g ((data.drop tagLen).drop n) mt
            (by simp only [List.length_drop]; omega)
            (by simp only [List.length_drop]; omega)]

theorem extractResourceMessage_skip (data : List Nat) (mt : String) (num : Int)
    (typ tagLen n : Nat)
    (htag : consumeTag data = some (num, typ, tagLen))
    (hm : (num == 1 && typ == 2) = false)
    (hs : skipField (data.drop tagLen) typ = some n) :
    extractResourceMessage data mt =
      extractResourceMessage ((data.drop tagLen).drop n) mt := by
  have htb := consumeTag_bounds htag
  have hsb := skipField_bounds hs
  rw [List.length_drop] at hsb
  unfold extractResourceMessage
  rw [extractResourceMessageGo,
    if_neg (isEmpty_false_of_ne_nil (consumeTag_ne_nil htag)), htag]
  dsimp only
  rw [hm]
  rw [if_neg (by simp)]
  rw [hs]
  exact extractResourceMessageGo_fuel data.length (((data.drop tagLen).drop n).length + 1)
    ((data.drop tagLen).drop n) mt (by simp only [List.length_drop]; omega) (by omega)

theorem extractResourceMessage_found (data : List Nat) (mt : String) (num : Int)
    (typ tagLen n : Nat) (msg : List Nat)
    (htag : consumeTag data = some (num, typ, tagLen))
    (hm : (num == 1 && typ == 2) = true)
    (hb : consumeBytes (data.drop tagLen) = some (msg, n)) :
    extractResourceMessage data mt = (msg, none) := by
  unfold extractResourceMessage
  rw [extractResourceMessageGo,
    if_neg (isEmpty_false_of_ne_nil (consumeTag_ne_nil htag)), htag]
  dsimp only
  rw [if_pos hm, hb]

theorem extractResourceMessage_tagErr (data : List Nat) (mt : String)
    (hne : data ≠ []) (htag : consumeTag data = none) :
    extractResourceMessage data mt =
      ([], some ("malformed protobuf tag in " ++ mt)) := by
  unfold extractResourceMessage
  rw [extractResourceMessageGo, if_neg (isEmpty_false_of_ne_nil hne), htag]

theorem extractResourceMessage_bytesErr (data : List Nat) (mt : String)
    (num : Int) (typ tagLen : Nat)
    (htag : consumeTag data = some (num, typ, tagLen))
    (hm : (num == 1 && typ == 2) = true)
    (hb : consumeBytes (data.drop tagLen) = none) :
    extractResourceMessage data mt = ([], some "invalid bytes in Resource") := by
  unfold extractResourceMessage
  rw [extractResourceMessageGo,
    if_neg (isEmpty_false_of_ne_nil (consumeTag_ne_nil htag)), htag]
  dsimp only
  rw [if_pos hm, hb]

theorem extractResourceMessage_skipErr (data : List Nat) (mt : String)
    (num : Int) (typ tagLen : Nat)
    (htag : consumeTag data = some (num, typ, tagLen))
    (hm : (num == 1 && typ == 2) = false)
    (hs : skipField (data.drop tagLen) typ = none) :
    extractResourceMessage data mt =
      ([], some ("failed to skip field in " ++ mt)) := by
  unfold extractResourceMessage
  rw [extractResourceMessageGo,
    if_neg (isEmpty_false_of_ne_nil (consumeTag_ne_nil htag)), htag]
  dsimp only
  rw [hm]
  rw [if_neg (by simp)]
  rw [hs]

/-! ## Pair-level head errors, shared by the per-function error clauses -/

theorem pairWalk_tagErr {α : Type} (im : Int → Bool) (te be : String) (z : α)
    (st : α → List Nat → α × Option String) (data : List Nat) (acc : α)
    (hne : data ≠ []) (htag : consumeTag data = none) :
    ((walk im te be z st data acc).1, (walk im te be z st data acc).2.1) =
      (z, some te) := by
  rw [walk_head_tagErr im te be z st data acc hne htag]

theorem pairWalk_headBytesErr {α : Type} (im : Int → Bool) (te be : String) (z : α)
    (st : α → List Nat → α × Option String) (B : Nat) (rest : List Nat) (acc : α)
    (hB1 : 8 ≤ B) (hB2 : B < 128)
    (hm : (im ((B / 8 : Nat) : Int) && ((B % 8 : Nat) == 2)) = true)
    (hb : consumeBytes rest = none) :
    ((walk im te be z st (B :: rest) acc).1,
      (walk im te be z st (B :: rest) acc).2.1) = (z, some be) := by
  have htag := consumeTag_single rest hB2 hB1
  rw [walk_head_bytesErr im te be z st (B :: rest) acc _ _ _ htag hm
    (by simpa only [List.drop_succ_cons, List.drop_zero] using hb)]

theorem pairWalk_head11 {α : Type} (im : Int → Bool) (te be : String) (z : α)
    (st : α → List Nat → α × Option String) (rest : List Nat) (acc : α) :
    ((walk im te be z st (11 :: rest) acc).1,
      (walk im te be z st (11 :: rest) acc).2.1) =
      (z, some "failed to skip field") := by
  have htag : consumeTag (11 :: rest) = some (1, 3, 1) := by
    rw [consumeTag_single _ (by omega) (by omega)]
    norm_num
  have hs : skipField ((11 :: rest).drop 1) 3 = none := by
    simp only [List.drop_succ_cons, List.drop_zero]
    unfold skipField
    rw [if_neg (by omega), if_neg (by omega), if_neg (by omega), if_neg (by omega)]
  rw [walk_head_skipErr im te be z st (11 :: rest) acc 1 3 1 htag (by simp) hs]

/-! ## The claims -/

/-- C1: for every well-formed `ExportMetricsServiceRequest` buffer (the
encoding of resources → scopes → metrics → variant containers reached by
descending root field 1 → field 2 → field 2 → fields 5/7/9/10/11),
`countMetricDataPoints` — exposed as `DataPointCount` — returns the
number of length-delimited field-1 occurrences inside the metric-variant
containers, with no error. -/
theorem claim_C1 (rs : List (List (List (List MetricVariant))))
    (hlen : (encodeRequest rs).length < 2 ^ 63) (hvalid : validVariants rs) :
    countMetricDataPoints (encodeRequest rs) = (specCountRequest rs, none) ∧
    DataPointCount (encodeRequest rs) = specCountRequest rs := by
  have h := walkRequest_enc rs 0 hlen hvalid
  have h1 : countMetricDataPoints (encodeRequest rs) = (specCountRequest rs, none) := by
    unfold countMetricDataPoints
    rw [h]
    simp
  refine ⟨h1, ?_⟩
  unfold DataPointCount
  rw [h1]

/-- C1 witness: a batch with a single resource holding one metric that
has a 2-data-point gauge (field 5) and a 1-data-point sum (field 7)
encodes to the concrete 16-byte buffer and counts 3 data points. -/
theorem claim_C1_witness :
    validVariants [[[[⟨5, [[], []]⟩, ⟨7, [[]]⟩]]]] ∧
    encodeRequest [[[[⟨5, [[], []]⟩, ⟨7, [[]]⟩]]]] =
      [10, 14, 18, 12, 18, 10, 42, 4, 10, 0, 10, 0, 58, 2, 10, 0] ∧
    countMetricDataPoints [10, 14, 18, 12, 18, 10, 42, 4, 10, 0, 10, 0, 58, 2, 10, 0] =
      (3, none) ∧
    DataPointCount [10, 14, 18, 12, 18, 10, 42, 4, 10, 0, 10, 0, 58, 2, 10, 0] = 3 := by
  have henc : encodeRequest [[[[⟨5, [[], []]⟩, ⟨7, [[]]⟩]]]] =
      [10, 14, 18, 12, 18, 10, 42, 4, 10, 0, 10, 0, 58, 2, 10, 0] := by decide
  have hspec : specCountRequest [[[[⟨5, [[], []]⟩, ⟨7, [[]]⟩]]]] = 3 := by decide
  have hvv : validVariants [[[[⟨5, [[], []]⟩, ⟨7, [[]]⟩]]]] := by
    unfold validVariants
    decide
  obtain ⟨hA, hB⟩ := claim_C1 [[[[⟨5, [[], []]⟩, ⟨7, [[]]⟩]]]] (by decide) hvv
  rw [henc, hspec] at hA hB
  exact ⟨hvv, henc, hA, hB⟩

/-- C2: whenever batch-level counting succeeds, the batch count equals
the sum of the per-resource counts over the resources returned by
extraction, in encoding order, and each per-resource count succeeds —
for metrics, logs and traces alike; the two-resource example with leaf
counts 5 and 15 gives batch count 20 and extraction yields exactly those
two items in order. -/
theorem claim_C2 :
    (∀ (data : List Nat) (c : Nat), countMetricDataPoints data = (c, none) →
      ∃ rs, extractResourceMetrics data = (rs, none) ∧
        c = (rs.map (fun r => (countInResourceMetrics r).1)).sum ∧
        ∀ r ∈ rs, (countInResourceMetrics r).2 = none) ∧
    (∀ (data : List Nat) (c : Nat), countLogRecords data = (c, none) →
      ∃ rs, extractResourceLogs data = (rs, none) ∧
        c = (rs.map (fun r => (countInResourceLogs r).1)).sum ∧
        ∀ r ∈ rs, (countInResourceLogs r).2 = none) ∧
    (∀ (data : List Nat) (c : Nat), countSpans data = (c, none) →
      ∃ rs, extractResourceSpans data = (rs, none) ∧
        c = (rs.map (fun r => (countInResourceSpans r).1)).sum ∧
        ∀ r ∈ rs, (countInResourceSpans r).2 = none) ∧
    countMetricDataPoints
      [10, 16, 18, 14, 18, 12, 42, 10, 10, 0, 10, 0, 10, 0, 10, 0, 10, 0,
       10, 36, 18, 34, 18, 32, 42, 30, 10, 0, 10, 0, 10, 0, 10, 0, 10, 0,
       10, 0, 10, 0, 10, 0, 10, 0, 10, 0, 10, 0, 10, 0, 10, 0, 10, 0, 10, 0] =
      (20, none) ∧
    extractResourceMetrics
      [10, 16, 18, 14, 18, 12, 42, 10, 10, 0, 10, 0, 10, 0, 10, 0, 10, 0,
       10, 36, 18, 34, 18, 32, 42, 30, 10, 0, 10, 0, 10, 0, 10, 0, 10, 0,
       10, 0, 10, 0, 10, 0, 10, 0, 10, 0, 10, 0, 10, 0, 10, 0, 10, 0, 10, 0] =
      ([[18, 14, 18, 12, 42, 10, 10, 0, 10, 0, 10, 0, 10, 0, 10, 0],
        [18, 34, 18, 32, 42, 30, 10, 0, 10, 0, 10, 0, 10, 0, 10, 0,
         10, 0, 10, 0, 10, 0, 10, 0, 10, 0, 10, 0, 10, 0, 10, 0, 10, 0, 10, 0]],
       none) ∧
    countInResourceMetrics [18, 14, 18, 12, 42, 10, 10, 0, 10, 0, 10, 0, 10, 0, 10, 0] =
      (5, none) ∧
    countInResourceMetrics
      [18, 34, 18, 32, 42, 30, 10, 0, 10, 0, 10, 0, 10, 0, 10, 0,
       10, 0, 10, 0, 10, 0, 10, 0, 10, 0, 10, 0, 10, 0, 10, 0, 10, 0, 10, 0] =
      (15, none) := by
  refine ⟨?_, ?_, ?_, by decide, by decide, by decide, by decide⟩
  · intro data c h
    exact count_extract_general _ _ _ countInResourceMetrics data c h
  · intro data c h
    exact count_extract_general _ _ _ countInResourceLogs data c h
  · intro data c h
    exact count_extract_general _ _ _ countInResourceSpans data c h

/-- C2 witness: the claim's general clause applied to the two-resource
example batch. -/
theorem claim_C2_witness :
    ∃ rs, extractResourceMetrics
        [10, 16, 18, 14, 18, 12, 42, 10, 10, 0, 10, 0, 10, 0, 10, 0, 10, 0,
         10, 36, 18, 34, 18, 32, 42, 30, 10, 0, 10, 0, 10, 0, 10, 0, 10, 0,
         10, 0, 10, 0, 10, 0, 10, 0, 10, 0, 10, 0, 10, 0, 10, 0, 10, 0, 10, 0] =
        (rs, none) ∧
      20 = (rs.map (fun r => (countInResourceMetrics r).1)).sum ∧
      ∀ r ∈ rs, (countInResourceMetrics r).2 = none :=
  claim_C2.1
    [10, 16, 18, 14, 18, 12, 42, 10, 10, 0, 10, 0, 10, 0, 10, 0, 10, 0,
     10, 36, 18, 34, 18, 32, 42, 30, 10, 0, 10, 0, 10, 0, 10, 0, 10, 0,
     10, 0, 10, 0, 10, 0, 10, 0, 10, 0, 10, 0, 10, 0, 10, 0, 10, 0, 10, 0]
    20 (by decide)

/-- C3 counterexample: a `ResourceMetrics` view holding one ScopeMetrics
field and no Resource field. The claim says `extractResourceMessage`
(exposed as `Resource()`) returns a FieldNotFound error; the code
returns the empty byte string with nil error. -/
theorem claim_C3_counterexample :
    extractResourceFromResourceMetrics [18, 2, 10, 0] = ([], none) ∧
    extractResourceFromResourceLogs [18, 2, 10, 0] = ([], none) ∧
    extractResourceFromResourceSpans [18, 2, 10, 0] = ([], none) := by
  refine ⟨by decide, by decide, by decide⟩

/-- C3 amended: for *every* view whose top-level walk exhausts all
fields without finding a length-delimited field 1 (`NoResourceWalk`),
`extractResourceMessage` returns the *empty byte string with nil
error*, not a FieldNotFound error — for any message-kind label; in
particular for the empty view and for every view holding a single
length-delimited field 2 (ScopeMetrics/ScopeLogs/ScopeSpans). -/
theorem claim_C3_amended :
    (∀ (data : List Nat) (mt : String), NoResourceWalk data →
      extractResourceMessage data mt = ([], none)) ∧
    (∀ mt : String, extractResourceMessage [] mt = ([], none)) ∧
    (∀ (mt : String) (p : List Nat), p.length < 128 →
      extractResourceMessage (18 :: p.length :: p) mt = ([], none)) := by
  refine ⟨?_, ?_, ?_⟩
  · intro data mt h
    induction h with
    | nil => rfl
    | step data num typ tagLen n htag hne hs hrec ih =>
      have hm : (num == 1 && typ == 2) = false := by
        by_cases h1 : num = 1
        · by_cases h2 : typ = 2
          · exact absurd ⟨h1, h2⟩ hne
          · simp [beq_eq_false_iff_ne, h2]
        · simp [beq_eq_false_iff_ne, h1]
      rw [extractResourceMessage_skip data mt num typ tagLen n htag hm hs]
      exact ih
  · intro mt; rfl
  · intro mt p hp
    have htag : consumeTag (18 :: p.length :: p) = some (2, 2, 1) := by
      rw [consumeTag_single _ (by omega) (by omega)]
      norm_num
    have hs : skipField ((18 :: p.length :: p).drop 1) 2 = some (1 + p.length) := by
      simp only [List.drop_succ_cons, List.drop_zero]
      unfold skipField
      rw [if_neg (by omega), if_neg (by omega), if_pos rfl]
      rw [consumeBytes_cons p hp (le_refl p.length)]
      rfl
    rw [extractResourceMessage_skip _ mt 2 2 1 (1 + p.length) htag (by decide) hs]
    simp only [List.drop_succ_cons, List.drop_zero]
    rw [show (1 : Nat) + p.length = p.length + 1 by omega, List.drop_succ_cons,
      List.drop_length]
    rfl

/-- C3 amended witness: the universal clause applied to the scope-only
view `[18, 2, 10, 0]` and to `[8, 0]` (a varint field 1), both of whose
walks exhaust without a length-delimited field 1. -/
theorem claim_C3_amended_witness :
    NoResourceWalk [18, 2, 10, 0] ∧ NoResourceWalk [8, 0] ∧
    extractResourceMessage [18, 2, 10, 0] "ResourceMetrics" = ([], none) ∧
    extractResourceMessage [8, 0] "ResourceMetrics" = ([], none) := by
  have hw1 : NoResourceWalk [18, 2, 10, 0] :=
    NoResourceWalk.step _ 2 2 1 3 (by decide) (by decide) (by decide)
      NoResourceWalk.nil
  have hw2 : NoResourceWalk [8, 0] :=
    NoResourceWalk.step _ 1 0 1 1 (by decide) (by decide) (by decide)
      NoResourceWalk.nil
  exact ⟨hw1, hw2, claim_C3_amended.1 [18, 2, 10, 0] "ResourceMetrics" hw1,
    claim_C3_amended.1 [8, 0] "ResourceMetrics" hw2⟩

/-- C4 counterexample: a field whose number matches the schema (field 1
at the `ExportMetricsServiceRequest` level) but whose wire type is
varint, not length-delimited: the byte `8` encodes tag (1, varint).
The claim says the pass fails with an UnexpectedWireType error; the
code silently skips the field and succeeds with count 0. -/
theorem claim_C4_counterexample :
    countMetricDataPoints [8, 0] = (0, none) ∧
    countLogRecords [8, 0] = (0, none) ∧
    countSpans [8, 0] = (0, none) ∧
    extractResourceMetrics [8, 0] = ([], none) := by
  refine ⟨by decide, by decide, by decide, by decide⟩

/-- C4 amended: in *every* traversal pass (every instantiation of the
shared walk — all counting and extraction loops — at any position, i.e.
on any remaining suffix and accumulator), a field whose wire type is
not length-delimited never takes the match branch, whatever its field
number: it is skipped by wire type exactly like a non-matching field —
varints, fixed64 (8 bytes) and fixed32 (4 bytes) are consumed and the
pass continues — and the pass errors only when the wire type is
unskippable (3, 4, 6, 7), with the generic skip error, never an
UnexpectedWireType error. -/
theorem claim_C4_amended :
    (∀ (α : Type) (im : Int → Bool) (te be : String) (z : α)
      (st : α → List Nat → α × Option String) (data : List Nat) (acc : α)
      (num : Int) (typ tagLen n : Nat),
      consumeTag data = some (num, typ, tagLen) → typ ≠ 2 →
      skipField (data.drop tagLen) typ = some n →
      walk im te be z st data acc =
        addConsumed (tagLen + n)
          (walk im te be z st ((data.drop tagLen).drop n) acc)) ∧
    (∀ (α : Type) (im : Int → Bool) (te be : String) (z : α)
      (st : α → List Nat → α × Option String) (data : List Nat) (acc : α)
      (num : Int) (typ tagLen : Nat),
      consumeTag data = some (num, typ, tagLen) → typ ≠ 2 →
      skipField (data.drop tagLen) typ = none →
      walk im te be z st data acc = (z, some "failed to skip field", 0)) ∧
    (∀ (data : List Nat) (typ : Nat), typ = 3 ∨ typ = 4 ∨ 6 ≤ typ →
      skipField data typ = none) ∧
    (∀ (b0 b1 b2 b3 b4 b5 b6 b7 : Nat) (rest : List Nat),
      skipField (b0 :: b1 :: b2 :: b3 :: b4 :: b5 :: b6 :: b7 :: rest) 1 = some 8) ∧
    (∀ (b0 b1 b2 b3 : Nat) (rest : List Nat),
      skipField (b0 :: b1 :: b2 :: b3 :: rest) 5 = some 4) ∧
    (∀ (x : Nat) (rest : List Nat), x < 128 →
      countMetricDataPoints (8 :: x :: rest) = countMetricDataPoints rest) ∧
    (∀ rest : List Nat,
      countMetricDataPoints (11 :: rest) = (0, some "failed to skip field")) := by
  have hmfalse : ∀ (im : Int → Bool) (num : Int) (typ : Nat), typ ≠ 2 →
      (im num && typ == 2) = false := by
    intro im num typ htyp
    simp [beq_eq_false_iff_ne, htyp]
  refine ⟨?_, ?_, ?_, ?_, ?_, ?_, ?_⟩
  · intro α im te be z st data acc num typ tagLen n htag htyp hs
    exact walk_head_skip_ok im te be z st data acc num typ tagLen n htag
      (hmfalse im num typ htyp) hs
  · intro α im te be z st data acc num typ tagLen htag htyp hs
    exact walk_head_skipErr im te be z st data acc num typ tagLen htag
      (hmfalse im num typ htyp) hs
  · intro data typ h
    unfold skipField
    rw [if_neg (by omega), if_neg (by omega), if_neg (by omega), if_neg (by omega)]
  · intro b0 b1 b2 b3 b4 b5 b6 b7 rest
    unfold skipField
    rw [if_neg (by omega), if_pos rfl]
    rfl
  · intro b0 b1 b2 b3 rest
    unfold skipField
    rw [if_neg (by omega), if_neg (by omega), if_neg (by omega), if_pos rfl]
    rfl
  · intro x rest hx
    have htag : consumeTag (8 :: x :: rest) = some (1, 0, 1) := by
      rw [consumeTag_single _ (by omega) (by omega)]
      norm_num
    have hs : skipField ((8 :: x :: rest).drop 1) 0 = some 1 := by
      simp only [List.drop_succ_cons, List.drop_zero]
      unfold skipField
      rw [if_pos rfl, consumeVarint_single rest hx]
      rfl
    unfold countMetricDataPoints
    rw [walk_head_skip_ok _ _ _ _ _ _ _ 1 0 1 1 htag (by decide) hs]
    simp only [List.drop_succ_cons, List.drop_zero, addConsumed]
  · intro rest
    have htag : consumeTag (11 :: rest) = some (1, 3, 1) := by
      rw [consumeTag_single _ (by omega) (by omega)]
      norm_num
    have hs : skipField ((11 :: rest).drop 1) 3 = none := by
      simp only [List.drop_succ_cons, List.drop_zero]
      unfold skipField
      rw [if_neg (by omega), if_neg (by omega), if_neg (by omega), if_neg (by omega)]
    unfold countMetricDataPoints
    rw [walk_head_skipErr _ _ _ _ _ _ _ 1 3 1 htag (by decide) hs]

/-- C4 amended witness: a matching field 1 with fixed64 wire type is
skipped (8 bytes) inside the metrics pass; a varint field 1 is skipped
and counting continues; a group-typed field 1 errors generically. -/
theorem claim_C4_amended_witness :
    consumeTag [9, 0, 0, 0, 0, 0, 0, 0, 0] = some (1, 1, 1) ∧
    walk (fun num => num == 1) "malformed protobuf tag in ExportMetricsServiceRequest"
      "invalid bytes in ResourceMetrics" 0 (stepCount countInResourceMetrics)
      [9, 0, 0, 0, 0, 0, 0, 0, 0] 0 =
      addConsumed 9
        (walk (fun num => num == 1)
          "malformed protobuf tag in ExportMetricsServiceRequest"
          "invalid bytes in ResourceMetrics" 0 (stepCount countInResourceMetrics)
          [] 0) ∧
    countMetricDataPoints [8, 0, 10, 0] = countMetricDataPoints [10, 0] ∧
    countMetricDataPoints [11, 1, 2] = (0, some "failed to skip field") := by
  obtain ⟨c1, -, -, -, -, c6, c7⟩ := claim_C4_amended
  exact ⟨by decide,
    c1 Nat (fun num => num == 1)
      "malformed protobuf tag in ExportMetricsServiceRequest"
      "invalid bytes in ResourceMetrics" 0 (stepCount countInResourceMetrics)
      [9, 0, 0, 0, 0, 0, 0, 0, 0] 0 1 1 1 8 (by decide) (by decide) (by decide),
    c6 0 [10, 0] (by decide), c7 [1, 2]⟩

/-- C5: the wrap functions emit exactly one length-delimited field 1
containing the payload — the tag byte 10 for (field 1, wire type 2),
the varint of the payload length, then the payload, nothing else — and
a conformant decoder (the extraction pass) parses exactly one top-level
resource entry from the wrapped bytes. -/
theorem claim_C5 (p : List Nat) (hp : p.length < 2 ^ 63) :
    wrapResourceMetrics p = 10 :: (appendVarint p.length ++ p) ∧
    wrapResourceLogs p = wrapResourceMetrics p ∧
    wrapResourceSpans p = wrapResourceMetrics p ∧
    consumeTag (wrapResourceMetrics p) = some (1, 2, 1) ∧
    consumeBytes ((wrapResourceMetrics p).drop 1) =
      some (p, (appendVarint p.length).length + p.length) ∧
    (wrapResourceMetrics p).length = 1 + ((appendVarint p.length).length + p.length) ∧
    extractResourceMetrics (wrapResourceMetrics p) = ([p], none) ∧
    extractResourceLogs (wrapResourceLogs p) = ([p], none) ∧
    extractResourceSpans (wrapResourceSpans p) = ([p], none) := by
  have hw : wrapResourceMetrics p =
      appendVarint (1 * 8 + 2) ++ (appendVarint p.length ++ p) := by
    have h := encodeField_append 1 p []
    simp only [List.append_nil] at h
    exact h
  have h10 : wrapResourceMetrics p = 10 :: (appendVarint p.length ++ p) := by
    rw [hw, show appendVarint (1 * 8 + 2) = [10] from by decide]
    rfl
  refine ⟨h10, rfl, rfl, ?_, ?_, ?_, ?_, ?_, ?_⟩
  · rw [hw, consumeTag_appendVarint _ (by omega) (by norm_num) (by omega)]
    norm_num
    decide
  · rw [h10]
    have h := consumeBytes_append p [] hp
    simp only [List.append_nil] at h
    exact h
  · rw [h10]
    simp [List.length_append]
    omega
  · unfold extractResourceMetrics
    rw [show wrapResourceMetrics p = encodeField 1 p ++ [] from by
      rw [List.append_nil]; rfl]
    rw [walk_match_ok _ _ _ _ _ 1 p [] [] [p] (by omega) (by norm_num) hp
      (by decide) rfl]
    rw [walk_nil]
    rfl
  · unfold extractResourceLogs
    rw [show wrapResourceLogs p = encodeField 1 p ++ [] from by
      rw [List.append_nil]; rfl]
    rw [walk_match_ok _ _ _ _ _ 1 p [] [] [p] (by omega) (by norm_num) hp
      (by decide) rfl]
    rw [walk_nil]
    rfl
  · unfold extractResourceSpans
    rw [show wrapResourceSpans p = encodeField 1 p ++ [] from by
      rw [List.append_nil]; rfl]
    rw [walk_match_ok _ _ _ _ _ 1 p [] [] [p] (by omega) (by norm_num) hp
      (by decide) rfl]
    rw [walk_nil]
    rfl

/-- C5 witness at the payload `[18, 2, 10, 0]`. -/
theorem claim_C5_witness :
    ([18, 2, 10, 0] : List Nat).length < 2 ^ 63 ∧
    wrapResourceMetrics [18, 2, 10, 0] = [10, 4, 18, 2, 10, 0] ∧
    extractResourceMetrics (wrapResourceMetrics [18, 2, 10, 0]) =
      ([[18, 2, 10, 0]], none) := by
  obtain ⟨h1, -, -, -, -, -, h7, -, -⟩ := claim_C5 [18, 2, 10, 0] (by decide)
  exact ⟨by decide, by decide, h7⟩

/-- C7 counterexample: on the buffer `[11]` — one field whose wire type
is 3 (group start), which the skip dispatcher cannot handle — the call
does return an error, but the error is the generic "failed to skip
field", which does not identify the message kind being walked
(`ExportMetricsServiceRequest` does not occur in it), contrary to the
claim that every such error identifies the message kind. -/
theorem claim_C7_counterexample :
    countMetricDataPoints [11] = (0, some "failed to skip field") ∧
    ¬ List.IsInfix "ExportMetricsServiceRequest".data "failed to skip field".data := by
  exact ⟨by decide, by decide⟩

/-- C7 amended: every counting and extraction function is total and
rejects malformed input with an error and a zero/nil result, never a
panic. Generically — for every instantiation of the shared walk, at any
reachable position (any fuel, remaining suffix and accumulator) — a
malformed tag aborts with the pass's malformed-tag error, a matched
length-delimited field whose length prefix exceeds the remaining bytes
aborts with the pass's invalid-bytes error (which names the *nested*
message kind), and an unskippable wire type aborts with the generic
"failed to skip field", which names no message kind. Instantiated for
all fourteen traversal functions with their kind-naming strings, for
`extractResourceMessage` with its per-kind strings, and for the claim's
concrete 16-byte-claim/2-bytes-remaining example. -/
theorem claim_C7_amended :
    (∀ (α : Type) (im : Int → Bool) (te be : String) (z : α)
      (st : α → List Nat → α × Option String) (fuel : Nat) (data : List Nat)
      (acc : α), data.length < fuel → data ≠ [] → consumeTag data = none →
      walkLoop im te be z st fuel data acc = (z, some te, 0)) ∧
    (∀ (α : Type) (im : Int → Bool) (te be : String) (z : α)
      (st : α → List Nat → α × Option String) (fuel : Nat) (data : List Nat)
      (acc : α) (num : Int) (typ tagLen : Nat), data.length < fuel →
      consumeTag data = some (num, typ, tagLen) →
      (im num && typ == 2) = true → consumeBytes (data.drop tagLen) = none →
      walkLoop im te be z st fuel data acc = (z, some be, 0)) ∧
    (∀ (α : Type) (im : Int → Bool) (te be : String) (z : α)
      (st : α → List Nat → α × Option String) (fuel : Nat) (data : List Nat)
      (acc : α) (num : Int) (typ tagLen : Nat), data.length < fuel →
      consumeTag data = some (num, typ, tagLen) →
      (im num && typ == 2) = false → skipField (data.drop tagLen) typ = none →
      walkLoop im te be z st fuel data acc =
        (z, some "failed to skip field", 0)) ∧
    ((∀ data : List Nat, data ≠ [] → consumeTag data = none →
      countMetricDataPoints data = (0, some "malformed protobuf tag in ExportMetricsServiceRequest")) ∧
    (∀ rest : List Nat, consumeBytes rest = none →
      countMetricDataPoints (10 :: rest) = (0, some "invalid bytes in ResourceMetrics")) ∧
    (∀ rest : List Nat,
      countMetricDataPoints (11 :: rest) = (0, some "failed to skip field"))) ∧
    ((∀ data : List Nat, data ≠ [] → consumeTag data = none →
      countInResourceMetrics data = (0, some "malformed protobuf tag in ResourceMetrics")) ∧
    (∀ rest : List Nat, consumeBytes rest = none →
      countInResourceMetrics (18 :: rest) = (0, some "invalid bytes in ScopeMetrics")) ∧
    (∀ rest : List Nat,
      countInResourceMetrics (11 :: rest) = (0, some "failed to skip field"))) ∧
    ((∀ data : List Nat, data ≠ [] → consumeTag data = none →
      countInScopeMetrics data = (0, some "malformed protobuf tag in ScopeMetrics")) ∧
    (∀ rest : List Nat, consumeBytes rest = none →
      countInScopeMetrics (18 :: rest) = (0, some "invalid bytes in Metrics")) ∧
    (∀ rest : List Nat,
      countInScopeMetrics (11 :: rest) = (0, some "failed to skip field"))) ∧
    ((∀ data : List Nat, data ≠ [] → consumeTag data = none →
      countInMetric data = (0, some "malformed protobuf tag in Metric")) ∧
    (∀ rest : List Nat, consumeBytes rest = none →
      countInMetric (42 :: rest) = (0, some "invalid bytes in metric data")) ∧
    (∀ rest : List Nat,
      countInMetric (11 :: rest) = (0, some "failed to skip field"))) ∧
    ((∀ data : List Nat, data ≠ [] → consumeTag data = none →
      countDataPoints data = (0, some "malformed protobuf tag in metric data points")) ∧
    (∀ rest : List Nat, consumeBytes rest = none →
      countDataPoints (10 :: rest) = (0, some "invalid bytes in DataPoints")) ∧
    (∀ rest : List Nat,
      countDataPoints (11 :: rest) = (0, some "failed to skip field"))) ∧
    ((∀ data : List Nat, data ≠ [] → consumeTag data = none →
      countLogRecords data = (0, some "malformed protobuf tag in ExportLogsServiceRequest")) ∧
    (∀ rest : List Nat, consumeBytes rest = none →
      countLogRecords (10 :: rest) = (0, some "invalid bytes in ResourceLogs")) ∧
    (∀ rest : List Nat,
      countLogRecords (11 :: rest) = (0, some "failed to skip field"))) ∧
    ((∀ data : List Nat, data ≠ [] → consumeTag data = none →
      countInResourceLogs data = (0, some "malformed protobuf tag in ResourceLogs")) ∧
    (∀ rest : List Nat, consumeBytes rest = none →
      countInResourceLogs (18 :: rest) = (0, some "invalid bytes in ScopeLogs")) ∧
    (∀ rest : List Nat,
      countInResourceLogs (11 :: rest) = (0, some "failed to skip field"))) ∧
    ((∀ data : List Nat, data ≠ [] → consumeTag data = none →
      countInScopeLogs data = (0, some "malformed protobuf tag in ScopeLogs")) ∧
    (∀ rest : List Nat, consumeBytes rest = none →
      countInScopeLogs (18 :: rest) = (0, some "invalid bytes in LogRecords")) ∧
    (∀ rest : List Nat,
      countInScopeLogs (11 :: rest) = (0, some "failed to skip field"))) ∧
    ((∀ data : List Nat, data ≠ [] → consumeTag data = none →
      countSpans data = (0, some "malformed protobuf tag in ExportTracesServiceRequest")) ∧
    (∀ rest : List Nat, consumeBytes rest = none →
      countSpans (10 :: rest) = (0, some "invalid bytes in ResourceSpans")) ∧
    (∀ rest : List Nat,
      countSpans (11 :: rest) = (0, some "failed to skip field"))) ∧
    ((∀ data : List Nat, data ≠ [] → consumeTag data = none →
      countInResourceSpans data = (0, some "malformed protobuf tag in ResourceSpans")) ∧
    (∀ rest : List Nat, consumeBytes rest = none →
      countInResourceSpans (18 :: rest) = (0, some "invalid bytes in ScopeSpans")) ∧
    (∀ rest : List Nat,
      countInResourceSpans (11 :: rest) = (0, some "failed to skip field"))) ∧
    ((∀ data : List Nat, data ≠ [] → consumeTag data = none →
      countInScopeSpans data = (0, some "malformed protobuf tag in ScopeSpans")) ∧
    (∀ rest : List Nat, consumeBytes rest = none →
      countInScopeSpans (18 :: rest) = (0, some "invalid bytes in Spans")) ∧
    (∀ rest : List Nat,
      countInScopeSpans (11 :: rest) = (0, some "failed to skip field"))) ∧
    ((∀ data : List Nat, data ≠ [] → consumeTag data = none →
      extractResourceMetrics data = ([], some "malformed protobuf tag in ExportMetricsServiceRequest")) ∧
    (∀ rest : List Nat, consumeBytes rest = none →
      extractResourceMetrics (10 :: rest) = ([], some "invalid bytes in ResourceMetrics")) ∧
    (∀ rest : List Nat,
      extractResourceMetrics (11 :: rest) = ([], some "failed to skip field"))) ∧
    ((∀ data : List Nat, data ≠ [] → consumeTag data = none →
      extractResourceLogs data = ([], some "malformed protobuf tag in ExportLogsServiceRequest")) ∧
    (∀ rest : List Nat, consumeBytes rest = none →
      extractResourceLogs (10 :: rest) = ([], some "invalid bytes in ResourceLogs")) ∧
    (∀ rest : List Nat,
      extractResourceLogs (11 :: rest) = ([], some "failed to skip field"))) ∧
    ((∀ data : List Nat, data ≠ [] → consumeTag data = none →
      extractResourceSpans data = ([], some "malformed protobuf tag in ExportTracesServiceRequest")) ∧
    (∀ rest : List Nat, consumeBytes rest = none →
      extractResourceSpans (10 :: rest) = ([], some "invalid bytes in ResourceSpans")) ∧
    (∀ rest : List Nat,
      extractResourceSpans (11 :: rest) = ([], some "failed to skip field"))) ∧
    ((∀ (mt : String) (data : List Nat), data ≠ [] → consumeTag data = none →
      extractResourceMessage data mt =
        ([], some ("malformed protobuf tag in " ++ mt))) ∧
    (∀ (mt : String) (rest : List Nat), consumeBytes rest = none →
      extractResourceMessage (10 :: rest) mt =
        ([], some "invalid bytes in Resource")) ∧
    (∀ (mt : String) (rest : List Nat),
      extractResourceMessage (11 :: rest) mt =
        ([], some ("failed to skip field in " ++ mt)))) ∧
    countMetricDataPoints [10, 16, 1, 2] =
      (0, some "invalid bytes in ResourceMetrics") := by
  refine ⟨?_, ?_, ?_, ⟨?_, ?_, ?_⟩, ⟨?_, ?_, ?_⟩, ⟨?_, ?_, ?_⟩, ⟨?_, ?_, ?_⟩, ⟨?_, ?_, ?_⟩, ⟨?_, ?_, ?_⟩, ⟨?_, ?_, ?_⟩, ⟨?_, ?_, ?_⟩, ⟨?_, ?_, ?_⟩, ⟨?_, ?_, ?_⟩, ⟨?_, ?_, ?_⟩, ⟨?_, ?_, ?_⟩, ⟨?_, ?_, ?_⟩, ⟨?_, ?_, ?_⟩,
    ⟨?_, ?_, ?_⟩, by decide⟩
  · intro α im te be z st fuel data acc hf hne htag
    rw [walkLoop_fuel im te be z st fuel (data.length + 1) data acc hf (by omega)]
    exact walk_head_tagErr im te be z st data acc hne htag
  · intro α im te be z st fuel data acc num typ tagLen hf htag hm hb
    rw [walkLoop_fuel im te be z st fuel (data.length + 1) data acc hf (by omega)]
    exact walk_head_bytesErr im te be z st data acc num typ tagLen htag hm hb
  · intro α im te be z st fuel data acc num typ tagLen hf htag hm hs
    rw [walkLoop_fuel im te be z st fuel (data.length + 1) data acc hf (by omega)]
    exact walk_head_skipErr im te be z st data acc num typ tagLen htag hm hs
  · intro data hne htag
    exact pairWalk_tagErr _ _ _ _ _ data 0 hne htag
  · intro rest hb
    exact pairWalk_headBytesErr _ _ _ _ _ 10 rest 0 (by omega) (by omega)
      (by decide) hb
  · intro rest
    exact pairWalk_head11 _ _ _ _ _ rest 0
  · intro data hne htag
    exact pairWalk_tagErr _ _ _ _ _ data 0 hne htag
  · intro rest hb
    exact pairWalk_headBytesErr _ _ _ _ _ 18 rest 0 (by omega) (by omega)
      (by decide) hb
  · intro rest
    exact pairWalk_head11 _ _ _ _ _ rest 0
  · intro data hne htag
    exact pairWalk_tagErr _ _ _ _ _ data 0 hne htag
  · intro rest hb
    exact pairWalk_headBytesErr _ _ _ _ _ 18 rest 0 (by omega) (by omega)
      (by decide) hb
  · intro rest
    exact pairWalk_head11 _ _ _ _ _ rest 0
  · intro data hne htag
    exact pairWalk_tagErr _ _ _ _ _ data 0 hne htag
  · intro rest hb
    exact pairWalk_headBytesErr _ _ _ _ _ 42 rest 0 (by omega) (by omega)
      (by decide) hb
  · intro rest
    exact pairWalk_head11 _ _ _ _ _ rest 0
  · intro data hne htag
    exact pairWalk_tagErr _ _ _ _ _ data 0 hne htag
  · intro rest hb
    exact pairWalk_headBytesErr _ _ _ _ _ 10 rest 0 (by omega) (by omega)
      (by decide) hb
  · intro rest
    exact pairWalk_head11 _ _ _ _ _ rest 0
  · intro data hne htag
    exact pairWalk_tagErr _ _ _ _ _ data 0 hne htag
  · intro rest hb
    exact pairWalk_headBytesErr _ _ _ _ _ 10 rest 0 (by omega) (by omega)
      (by decide) hb
  · intro rest
    exact pairWalk_head11 _ _ _ _ _ rest 0
  · intro data hne htag
    exact pairWalk_tagErr _ _ _ _ _ data 0 hne htag
  · intro rest hb
    exact pairWalk_headBytesErr _ _ _ _ _ 18 rest 0 (by omega) (by omega)
      (by decide) hb
  · intro rest
    exact pairWalk_head11 _ _ _ _ _ rest 0
  · intro data hne htag
    exact pairWalk_tagErr _ _ _ _ _ data 0 hne htag
  · intro rest hb
    exact pairWalk_headBytesErr _ _ _ _ _ 18 rest 0 (by omega) (by omega)
      (by decide) hb
  · intro rest
    exact pairWalk_head11 _ _ _ _ _ rest 0
  · intro data hne htag
    exact pairWalk_tagErr _ _ _ _ _ data 0 hne htag
  · intro rest hb
    exact pairWalk_headBytesErr _ _ _ _ _ 10 rest 0 (by omega) (by omega)
      (by decide) hb
  · intro rest
    exact pairWalk_head11 _ _ _ _ _ rest 0
  · intro data hne htag
    exact pairWalk_tagErr _ _ _ _ _ data 0 hne htag
  · intro rest hb
    exact pairWalk_headBytesErr _ _ _ _ _ 18 rest 0 (by omega) (by omega)
      (by decide) hb
  · intro rest
    exact pairWalk_head11 _ _ _ _ _ rest 0
  · intro data hne htag
    exact pairWalk_tagErr _ _ _ _ _ data 0 hne htag
  · intro rest hb
    exact pairWalk_headBytesErr _ _ _ _ _ 18 rest 0 (by omega) (by omega)
      (by decide) hb
  · intro rest
    exact pairWalk_head11 _ _ _ _ _ rest 0
  · intro data hne htag
    exact pairWalk_tagErr _ _ _ _ _ data ([] : List (List Nat)) hne htag
  · intro rest hb
    exact pairWalk_headBytesErr _ _ _ _ _ 10 rest ([] : List (List Nat)) (by omega) (by omega)
      (by decide) hb
  · intro rest
    exact pairWalk_head11 _ _ _ _ _ rest ([] : List (List Nat))
  · intro data hne htag
    exact pairWalk_tagErr _ _ _ _ _ data ([] : List (List Nat)) hne htag
  · intro rest hb
    exact pairWalk_headBytesErr _ _ _ _ _ 10 rest ([] : List (List Nat)) (by omega) (by omega)
      (by decide) hb
  · intro rest
    exact pairWalk_head11 _ _ _ _ _ rest ([] : List (List Nat))
  · intro data hne htag
    exact pairWalk_tagErr _ _ _ _ _ data ([] : List (List Nat)) hne htag
  · intro rest hb
    exact pairWalk_headBytesErr _ _ _ _ _ 10 rest ([] : List (List Nat)) (by omega) (by omega)
      (by decide) hb
  · intro rest
    exact pairWalk_head11 _ _ _ _ _ rest ([] : List (List Nat))
  · intro mt data hne htag
    exact extractResourceMessage_tagErr data mt hne htag
  · intro mt rest hb
    have htag : consumeTag (10 :: rest) = some (1, 2, 1) := by
      rw [consumeTag_single _ (by omega) (by omega)]
      norm_num
    exact extractResourceMessage_bytesErr (10 :: rest) mt 1 2 1 htag (by decide)
      (by simpa only [List.drop_succ_cons, List.drop_zero] using hb)
  · intro mt rest
    have htag : consumeTag (11 :: rest) = some (1, 3, 1) := by
      rw [consumeTag_single _ (by omega) (by omega)]
      norm_num
    have hs : skipField ((11 :: rest).drop 1) 3 = none := by
      simp only [List.drop_succ_cons, List.drop_zero]
      unfold skipField
      rw [if_neg (by omega), if_neg (by omega), if_neg (by omega), if_neg (by omega)]
    exact extractResourceMessage_skipErr (11 :: rest) mt 1 3 1 htag (by decide) hs

/-- C7 amended witness: head-malformed, truncated and group-typed
inputs exercised through the batch, scope and leaf passes, the raw
walk loop, and the resource extractor. -/
theorem claim_C7_amended_witness :
    countMetricDataPoints [255] =
      (0, some "malformed protobuf tag in ExportMetricsServiceRequest") ∧
    countInScopeMetrics [255] = (0, some "malformed protobuf tag in ScopeMetrics") ∧
    countInScopeMetrics [18, 5, 1] = (0, some "invalid bytes in Metrics") ∧
    countDataPoints [11, 3] = (0, some "failed to skip field") ∧
    extractResourceMessage [255] "ResourceMetrics" =
      ([], some ("malformed protobuf tag in " ++ "ResourceMetrics")) ∧
    walkLoop (fun num => num == 1)
      "malformed protobuf tag in ExportMetricsServiceRequest"
      "invalid bytes in ResourceMetrics" 0 (stepCount countInResourceMetrics)
      2 [255] 0 =
      (0, some "malformed protobuf tag in ExportMetricsServiceRequest", 0) ∧
    countMetricDataPoints [10, 16, 1, 2] =
      (0, some "invalid bytes in ResourceMetrics") := by
  obtain ⟨g1, g2, g3, hM1, hM2, hM3, hM4, hM5, hL1, hL2, hL3, hT1, hT2, hT3,
    hE1, hE2, hE3, hR, hX⟩ := claim_C7_amended
  obtain ⟨r1, r2, r3⟩ := hR
  exact ⟨hM1.1 [255] (by decide) (by decide),
    hM3.1 [255] (by decide) (by decide),
    hM3.2.1 [5, 1] (by decide),
    hM5.2.2 [3],
    r1 "ResourceMetrics" [255] (by decide) (by decide),
    g1 Nat (fun num => num == 1)
      "malformed protobuf tag in ExportMetricsServiceRequest"
      "invalid bytes in ResourceMetrics" 0 (stepCount countInResourceMetrics)
      2 [255] 0 (by decide) (by decide) (by decide),
    hX⟩

/-- C6: counting after wrapping equals counting the resource directly,
for all three signals, with identical error behavior (the results agree
as `(count, error)` pairs on every input). -/
theorem claim_C6 (r : List Nat) (hr : r.length < 2 ^ 63) :
    countMetricDataPoints (wrapResourceMetrics r) = countInResourceMetrics r ∧
    countLogRecords (wrapResourceLogs r) = countInResourceLogs r ∧
    countSpans (wrapResourceSpans r) = countInResourceSpans r := by
  refine ⟨?_, ?_, ?_⟩
  · cases hc : countInResourceMetrics r with
    | mk c eo =>
      cases eo with
      | none =>
        unfold countMetricDataPoints
        rw [show wrapResourceMetrics r = encodeField 1 r ++ [] from by
          rw [List.append_nil]; rfl]
        rw [walk_match_ok _ _ _ _ _ 1 r [] 0 (0 + c) (by omega) (by norm_num) hr
          (by decide) (by unfold stepCount; rw [hc])]
        rw [walk_nil]
        simp [addConsumed]
      | some e =>
        have hzero : c = 0 := by
          unfold countInResourceMetrics at hc
          exact walk_pair_error_zero _ _ _ _ _ _ _ hc
        unfold countMetricDataPoints
        rw [show wrapResourceMetrics r = encodeField 1 r ++ [] from by
          rw [List.append_nil]; rfl]
        rw [walk_match_err _ _ _ _ _ 1 r [] 0 0 e (by omega) (by norm_num) hr
          (by decide) (by unfold stepCount; rw [hc])]
        simp [hzero]
  · cases hc : countInResourceLogs r with
    | mk c eo =>
      cases eo with
      | none =>
        unfold countLogRecords
        rw [show wrapResourceLogs r = encodeField 1 r ++ [] from by
          rw [List.append_nil]; rfl]
        rw [walk_match_ok _ _ _ _ _ 1 r [] 0 (0 + c) (by omega) (by norm_num) hr
          (by decide) (by unfold stepCount; rw [hc])]
        rw [walk_nil]
        simp [addConsumed]
      | some e =>
        have hzero : c = 0 := by
          unfold countInResourceLogs at hc
          exact walk_pair_error_zero _ _ _ _ _ _ _ hc
        unfold countLogRecords
        rw [show wrapResourceLogs r = encodeField 1 r ++ [] from by
          rw [List.append_nil]; rfl]
        rw [walk_match_err _ _ _ _ _ 1 r [] 0 0 e (by omega) (by norm_num) hr
          (by decide) (by unfold stepCount; rw [hc])]
        simp [hzero]
  · cases hc : countInResourceSpans r with
    | mk c eo =>
      cases eo with
      | none =>
        unfold countSpans
        rw [show wrapResourceSpans r = encodeField 1 r ++ [] from by
          rw [List.append_nil]; rfl]
        rw [walk_match_ok _ _ _ _ _ 1 r [] 0 (0 + c) (by omega) (by norm_num) hr
          (by decide) (by unfold stepCount; rw [hc])]
        rw [walk_nil]
        simp [addConsumed]
      | some e =>
        have hzero : c = 0 := by
          unfold countInResourceSpans at hc
          exact walk_pair_error_zero _ _ _ _ _ _ _ hc
        unfold countSpans
        rw [show wrapResourceSpans r = encodeField 1 r ++ [] from by
          rw [List.append_nil]; rfl]
        rw [walk_match_err _ _ _ _ _ 1 r [] 0 0 e (by omega) (by norm_num) hr
          (by decide) (by unfold stepCount; rw [hc])]
        simp [hzero]

/-- C6 witness: a resource with one scope holding one gauge data point,
and an erroring resource, both agree across wrap. -/
theorem claim_C6_witness :
    countMetricDataPoints (wrapResourceMetrics [18, 8, 18, 6, 42, 4, 10, 0, 10, 0]) =
      countInResourceMetrics [18, 8, 18, 6, 42, 4, 10, 0, 10, 0] ∧
    countInResourceMetrics [18, 8, 18, 6, 42, 4, 10, 0, 10, 0] = (2, none) ∧
    countMetricDataPoints (wrapResourceMetrics [11]) = countInResourceMetrics [11] ∧
    countInResourceMetrics [11] = (0, some "failed to skip field") := by
  refine ⟨(claim_C6 [18, 8, 18, 6, 42, 4, 10, 0, 10, 0] (by decide)).1, by decide,
    (claim_C6 [11] (by decide)).1, by decide⟩

/-- C8: no partial results on error — whenever any traversal function
returns an error, the accompanying count is 0 (nil for extraction); and
an error arising at a deeper nesting level propagates unchanged through
each enclosing level to the top-level result (the first error aborts
the pass: the remainder of the buffer is irrelevant). -/
theorem claim_C8 :
    (∀ data c e, countMetricDataPoints data = (c, some e) → c = 0) ∧
    (∀ data c e, countInResourceMetrics data = (c, some e) → c = 0) ∧
    (∀ data c e, countInScopeMetrics data = (c, some e) → c = 0) ∧
    (∀ data c e, countInMetric data = (c, some e) → c = 0) ∧
    (∀ data c e, countDataPoints data = (c, some e) → c = 0) ∧
    (∀ data c e, countLogRecords data = (c, some e) → c = 0) ∧
    (∀ data c e, countInResourceLogs data = (c, some e) → c = 0) ∧
    (∀ data c e, countInScopeLogs data = (c, some e) → c = 0) ∧
    (∀ data c e, countSpans data = (c, some e) → c = 0) ∧
    (∀ data c e, countInResourceSpans data = (c, some e) → c = 0) ∧
    (∀ data c e, countInScopeSpans data = (c, some e) → c = 0) ∧
    (∀ data rs e, extractResourceMetrics data = (rs, some e) → rs = []) ∧
    (∀ data rs e, extractResourceLogs data = (rs, some e) → rs = []) ∧
    (∀ data rs e, extractResourceSpans data = (rs, some e) → rs = []) ∧
    (∀ (msg rest : List Nat) (c : Nat) (e : String), msg.length < 2 ^ 63 →
      countInResourceMetrics msg = (c, some e) →
      countMetricDataPoints (encodeField 1 msg ++ rest) = (0, some e)) ∧
    (∀ (msg rest : List Nat) (c : Nat) (e : String), msg.length < 2 ^ 63 →
      countInScopeMetrics msg = (c, some e) →
      countInResourceMetrics (encodeField 2 msg ++ rest) = (0, some e)) ∧
    (∀ (msg rest : List Nat) (c : Nat) (e : String), msg.length < 2 ^ 63 →
      countInMetric msg = (c, some e) →
      countInScopeMetrics (encodeField 2 msg ++ rest) = (0, some e)) ∧
    (∀ (msg rest : List Nat) (c : Nat) (e : String), msg.length < 2 ^ 63 →
      countDataPoints msg = (c, some e) →
      countInMetric (encodeField 5 msg ++ rest) = (0, some e)) := by
  refine ⟨?_, ?_, ?_, ?_, ?_, ?_, ?_, ?_, ?_, ?_, ?_, ?_, ?_, ?_, ?_, ?_, ?_, ?_⟩
  · intro data c e h
    unfold countMetricDataPoints at h
    exact walk_pair_error_zero _ _ _ _ _ _ _ h
  · intro data c e h
    unfold countInResourceMetrics at h
    exact walk_pair_error_zero _ _ _ _ _ _ _ h
  · intro data c e h
    unfold countInScopeMetrics at h
    exact walk_pair_error_zero _ _ _ _ _ _ _ h
  · intro data c e h
    unfold countInMetric at h
    exact walk_pair_error_zero _ _ _ _ _ _ _ h
  · intro data c e h
    unfold countDataPoints at h
    exact walk_pair_error_zero _ _ _ _ _ _ _ h
  · intro data c e h
    unfold countLogRecords at h
    exact walk_pair_error_zero _ _ _ _ _ _ _ h
  · intro data c e h
    unfold countInResourceLogs at h
    exact walk_pair_error_zero _ _ _ _ _ _ _ h
  · intro data c e h
    unfold countInScopeLogs at h
    exact walk_pair_error_zero _ _ _ _ _ _ _ h
  · intro data c e h
    unfold countSpans at h
    exact walk_pair_error_zero _ _ _ _ _ _ _ h
  · intro data c e h
    unfold countInResourceSpans at h
    exact walk_pair_error_zero _ _ _ _ _ _ _ h
  · intro data c e h
    unfold countInScopeSpans at h
    exact walk_pair_error_zero _ _ _ _ _ _ _ h
  · intro data rs e h
    unfold extractResourceMetrics at h
    exact walk_pair_error_zero _ _ _ _ _ _ _ h
  · intro data rs e h
    unfold extractResourceLogs at h
    exact walk_pair_error_zero _ _ _ _ _ _ _ h
  · intro data rs e h
    unfold extractResourceSpans at h
    exact walk_pair_error_zero _ _ _ _ _ _ _ h
  · intro msg rest c e hlen hc
    unfold countMetricDataPoints
    rw [walk_match_err _ _ _ _ _ 1 msg rest 0 0 e (by omega) (by norm_num) hlen
      (by decide) (by unfold stepCount; rw [hc])]
  · intro msg rest c e hlen hc
    unfold countInResourceMetrics
    rw [walk_match_err _ _ _ _ _ 2 msg rest 0 0 e (by omega) (by norm_num) hlen
      (by decide) (by unfold stepCount; rw [hc])]
  · intro msg rest c e hlen hc
    unfold countInScopeMetrics
    rw [walk_match_err _ _ _ _ _ 2 msg rest 0 0 e (by omega) (by norm_num) hlen
      (by decide) (by unfold stepCount; rw [hc])]
  · intro msg rest c e hlen hc
    unfold countInMetric
    rw [walk_match_err _ _ _ _ _ 5 msg rest 0 0 e (by omega) (by norm_num) hlen
      (by decide) (by unfold stepCount; rw [hc])]

/-- C8 witness: a group-typed field (`[11]`) errors at every level with
count 0, and its error propagates unchanged from the resource level (and
from the variant level) to the enclosing pass, regardless of what
follows the erroring field. -/
theorem claim_C8_witness :
    countInResourceMetrics [11] = (0, some "failed to skip field") ∧
    (0 : Nat) = 0 ∧
    countMetricDataPoints (encodeField 1 [11] ++ [8, 0]) =
      (0, some "failed to skip field") ∧
    countInMetric (encodeField 5 [11] ++ []) = (0, some "failed to skip field") := by
  obtain ⟨h1, -, -, -, -, -, -, -, -, -, -, -, -, -, p1, -, -, p4⟩ := claim_C8
  exact ⟨by decide, h1 [11] 0 "failed to skip field" (by decide),
    p1 [11] [8, 0] 0 "failed to skip field" (by decide) (by decide),
    p4 [11] [] 0 "failed to skip field" (by decide) (by decide)⟩

/-- C9: cursor invariant — every successful decode step consumes at
least one byte and never more than the remaining view (so the cursor
advances monotonically and never passes the end), and a successful
single-level pass (shown for the two cited loops, `countDataPoints` and
`countMetricDataPoints`) consumes exactly the view's length: the pass
ends with the cursor at `len(data)`. -/
theorem claim_C9 :
    (∀ (b : List Nat) (v n : Nat),
      consumeVarint b = some (v, n) → 1 ≤ n ∧ n ≤ b.length) ∧
    (∀ (b : List Nat) (num : Int) (typ n : Nat),
      consumeTag b = some (num, typ, n) → 1 ≤ n ∧ n ≤ b.length) ∧
    (∀ (b msg : List Nat) (n : Nat),
      consumeBytes b = some (msg, n) → 1 ≤ n ∧ n ≤ b.length) ∧
    (∀ (b : List Nat) (t n : Nat),
      skipField b t = some n → 1 ≤ n ∧ n ≤ b.length) ∧
    (∀ (data : List Nat) (a k : Nat),
      walk (fun num => num == 1) "malformed protobuf tag in metric data points"
        "invalid bytes in DataPoints" 0 (fun acc _ => (acc + 1, none)) data 0 =
        (a, none, k) →
      k = data.length ∧ countDataPoints data = (a, none)) ∧
    (∀ (data : List Nat) (a k : Nat),
      walk (fun num => num == 1) "malformed protobuf tag in ExportMetricsServiceRequest"
        "invalid bytes in ResourceMetrics" 0 (stepCount countInResourceMetrics) data 0 =
        (a, none, k) →
      k = data.length ∧ countMetricDataPoints data = (a, none)) := by
  refine ⟨fun b v n h => consumeVarint_bounds h,
    fun b num typ n h => consumeTag_bounds h,
    fun b msg n h => consumeBytes_bounds h,
    fun b t n h => skipField_bounds h, ?_, ?_⟩
  · intro data a k h
    have h21 : (walk (fun num => num == 1) "malformed protobuf tag in metric data points"
        "invalid bytes in DataPoints" 0 (fun acc _ => (acc + 1, none)) data 0).2.1 =
        none := by rw [h]
    have h22 : (walk (fun num => num == 1) "malformed protobuf tag in metric data points"
        "invalid bytes in DataPoints" 0 (fun acc _ => (acc + 1, none)) data 0).2.2 =
        data.length :=
      walkLoop_consumed _ _ _ _ _ (data.length + 1) data 0 (by omega) h21
    rw [h] at h22
    refine ⟨h22, ?_⟩
    unfold countDataPoints
    rw [h]
  · intro data a k h
    have h21 : (walk (fun num => num == 1)
        "malformed protobuf tag in ExportMetricsServiceRequest"
        "invalid bytes in ResourceMetrics" 0 (stepCount countInResourceMetrics)
        data 0).2.1 = none := by rw [h]
    have h22 : (walk (fun num => num == 1)
        "malformed protobuf tag in ExportMetricsServiceRequest"
        "invalid bytes in ResourceMetrics" 0 (stepCount countInResourceMetrics)
        data 0).2.2 = data.length :=
      walkLoop_consumed _ _ _ _ _ (data.length + 1) data 0 (by omega) h21
    rw [h] at h22
    refine ⟨h22, ?_⟩
    unfold countMetricDataPoints
    rw [h]

/-- C9 witness: on the 2-data-point leaf view the pass consumes exactly
4 bytes, and on the 16-byte batch example exactly 16. -/
theorem claim_C9_witness :
    (walk (fun num => num == 1) "malformed protobuf tag in metric data points"
      "invalid bytes in DataPoints" 0 (fun acc _ => (acc + 1, none))
      [10, 0, 10, 0] 0 = ((2 : Nat), (none : Option String), (4 : Nat))) ∧
    (4 : Nat) = ([10, 0, 10, 0] : List Nat).length ∧
    countDataPoints [10, 0, 10, 0] = (2, none) ∧
    (16 : Nat) = ([10, 14, 18, 12, 18, 10, 42, 4, 10, 0, 10, 0, 58, 2, 10, 0] :
      List Nat).length := by
  have h : walk (fun num => num == 1) "malformed protobuf tag in metric data points"
      "invalid bytes in DataPoints" 0 (fun acc _ => (acc + 1, none))
      [10, 0, 10, 0] 0 = ((2 : Nat), (none : Option String), (4 : Nat)) := by decide
  obtain ⟨hk, hc⟩ := claim_C9.2.2.2.2.1 [10, 0, 10, 0] 2 4 h
  exact ⟨h, hk, hc, by decide⟩

/-- C10: the exported methods discard traversal errors — on every input
where the underlying traversal errors, `DataPointCount`,
`LogRecordCount` and `SpanCount` return 0 and the `SplitByResource`
methods return nil, exactly the values the methods return on an empty
batch, so at the public interface a corrupted batch is
indistinguishable from an empty one. -/
theorem claim_C10 :
    (∀ m, (countMetricDataPoints m).2 ≠ none → DataPointCount m = 0) ∧
    (∀ l, (countLogRecords l).2 ≠ none → LogRecordCount l = 0) ∧
    (∀ t, (countSpans t).2 ≠ none → SpanCount t = 0) ∧
    (∀ m, (extractResourceMetrics m).2 ≠ none → SplitByResourceMetrics m = []) ∧
    (∀ l, (extractResourceLogs l).2 ≠ none → SplitByResourceLogs l = []) ∧
    (∀ t, (extractResourceSpans t).2 ≠ none → SplitByResourceSpans t = []) ∧
    DataPointCount [] = 0 ∧ LogRecordCount [] = 0 ∧ SpanCount [] = 0 ∧
    SplitByResourceMetrics [] = [] ∧ SplitByResourceLogs [] = [] ∧
    SplitByResourceSpans [] = [] := by
  refine ⟨?_, ?_, ?_, ?_, ?_, ?_, by decide, by decide, by decide, by decide,
    by decide, by decide⟩
  · intro m h
    cases hc : countMetricDataPoints m with
    | mk c eo =>
      cases eo with
      | none => rw [hc] at h; exact absurd rfl h
      | some e =>
        have hz : c = 0 := by
          unfold countMetricDataPoints at hc
          exact walk_pair_error_zero _ _ _ _ _ _ _ hc
        unfold DataPointCount
        rw [hc, hz]
  · intro l h
    cases hc : countLogRecords l with
    | mk c eo =>
      cases eo with
      | none => rw [hc] at h; exact absurd rfl h
      | some e =>
        have hz : c = 0 := by
          unfold countLogRecords at hc
          exact walk_pair_error_zero _ _ _ _ _ _ _ hc
        unfold LogRecordCount
        rw [hc, hz]
  · intro t h
    cases hc : countSpans t with
    | mk c eo =>
      cases eo with
      | none => rw [hc] at h; exact absurd rfl h
      | some e =>
        have hz : c = 0 := by
          unfold countSpans at hc
          exact walk_pair_error_zero _ _ _ _ _ _ _ hc
        unfold SpanCount
        rw [hc, hz]
  · intro m h
    cases hx : extractResourceMetrics m with
    | mk rs eo =>
      cases eo with
      | none => rw [hx] at h; exact absurd rfl h
      | some e =>
        unfold SplitByResourceMetrics
        rw [hx]
  · intro l h
    cases hx : extractResourceLogs l with
    | mk rs eo =>
      cases eo with
      | none => rw [hx] at h; exact absurd rfl h
      | some e =>
        unfold SplitByResourceLogs
        rw [hx]
  · intro t h
    cases hx : extractResourceSpans t with
    | mk rs eo =>
      cases eo with
      | none => rw [hx] at h; exact absurd rfl h
      | some e =>
        unfold SplitByResourceSpans
        rw [hx]

/-- C10 witness: `[8]` (a field-1 varint tag with a truncated value)
errors in both traversals, and the public methods return 0 and nil. -/
theorem claim_C10_witness :
    (countMetricDataPoints [8]).2 ≠ none ∧ DataPointCount [8] = 0 ∧
    (extractResourceMetrics [8]).2 ≠ none ∧ SplitByResourceMetrics [8] = [] := by
  obtain ⟨h1, -, -, h4, -⟩ := claim_C10
  exact ⟨by decide, h1 [8] (by decide), by decide, h4 [8] (by decide)⟩

end OtlpWire
